import Mathlib

/-!
# Verification of the SEPI 2.0 retrieval core (`sepi.py`)

A shallow embedding of the query-fallback retrieval engine of `sepi.py`:
the preset table (`PROTEIN_CONFIG`), the file-backed cache store
(`load_cache` / `save_cache` / `get_cached_result` / `set_cached_result`),
the tiered query builder and search loop of `search_and_fetch_protein`,
and the workflow portion of `main`.

Modelling conventions:
* External libraries and services (NCBI Entrez, `hashlib.md5`, `Bio.SeqIO`
  parsing, filesystem write success) are collected in a `World` record of
  deterministic uninterpreted functions; an `Except Unit` result models a
  Python call that may raise an exception.
* Wall-clock time (`time.time()`) is modelled as a natural number of
  seconds, passed explicitly as `now`.
* `time.sleep(0.35)` and every remote call are recorded as events in a
  trace, so that call-ordering and rate-spacing properties are statable.
* Exceptions that the source catches and logs are modelled by total
  functions returning `none` / leaving state unchanged; logging itself is
  not modelled.
-/

-- Decidable equality for the Except results of the modelled remote calls.
deriving instance DecidableEq for Except

/-- A parsed FASTA record: `SeqIO.read` yields an id (the accession) and a
biological sequence whose length the source takes (`len(seq_record.seq)`). -/
structure FastaRec where
  id : String
  seqLen : Nat
deriving DecidableEq, Repr

/-- One record of an `Entrez.esummary` response; the source reads the
`Caption`, `Title` and `Organism` fields with `dict.get` defaults, so each
field may be absent. -/
structure SummaryRec where
  caption : Option String
  title : Option String
  organismField : Option String
deriving DecidableEq, Repr

/-- The external environment of one run: md5 hashing, the three remote
Entrez calls (search, sequence fetch, summary fetch), FASTA parsing, and
whether writing the cache file succeeds.  All deterministic: the same
query always gets the same answer within one world. -/
structure World where
  md5 : String → String
  esearch : String → Except Unit (List String)
  efetchFasta : String → Except Unit String
  parseFasta : String → Except Unit FastaRec
  esummary : String → Except Unit (List SummaryRec)
  writeOk : Bool

/-- The metadata dictionary built at lines 256-265 of `sepi.py`.  The
source produces either the empty dict `{}` (all fields absent) or a dict
with all five keys present; `Option` fields model key presence. -/
structure Metadata where
  protein_length : Option Nat
  source_strain : Option String
  ncbi_url : Option String
  title : Option String
  organismLabel : Option String
deriving DecidableEq, Repr

/-- The empty metadata dict `{}`. -/
def Metadata.empty : Metadata := ⟨none, none, none, none, none⟩

/-- The success value of `search_and_fetch_protein`: the
`(accession, fasta_data, metadata)` triple (line 273 of `sepi.py`). -/
structure RQResult where
  accession : String
  fasta : String
  metadata : Metadata
deriving DecidableEq, Repr

/-- One cache entry: `{'timestamp': ..., 'result': ...}` (lines 104-107). -/
structure CacheEntry where
  timestamp : Nat
  result : RQResult
deriving DecidableEq, Repr

/-- The on-disk state of `.sepi_cache/query_cache.json`: missing, present
but unreadable/undecodable, or a decoded key-to-entry mapping (modelled as
an association list with unique keys, first match wins). -/
inductive CacheFile where
  | missing
  | corrupt
  | ok (entries : List (String × CacheEntry))
deriving DecidableEq, Repr

/-- Dictionary lookup on the association list (Python `cache[key]` /
`cache_key in cache`). -/
def lookupEntry : List (String × CacheEntry) → String → Option CacheEntry
  | [], _ => none
  | (k, e) :: rest, key => if k = key then some e else lookupEntry rest key

/-- Dictionary assignment `cache[cache_key] = entry`: replace the existing
binding or append a new one. -/
def insertEntry : List (String × CacheEntry) → String → CacheEntry → List (String × CacheEntry)
  | [], key, e => [(key, e)]
  | (k, e0) :: rest, key, e =>
    if k = key then (key, e) :: rest else (k, e0) :: insertEntry rest key e

/-- `CACHE_EXPIRY_HOURS = 24` (line 64 of `sepi.py`). -/
def CACHE_EXPIRY_HOURS : Nat := 24

/-- `get_cache_key` (lines 68-70): md5 hex digest of the query string. -/
def get_cache_key (w : World) (query : String) : String := w.md5 query

/-- The key actually used by the search loop (line 207):
`get_cache_key(f"search_{query}")`. -/
def searchKey (w : World) (query : String) : String :=
  get_cache_key w ("search_" ++ query)

/-- `load_cache` (lines 72-80): a missing file or any read/decode failure
yields the empty dict. -/
def load_cache : CacheFile → List (String × CacheEntry)
  | .ok entries => entries
  | _ => []

/-- `save_cache` (lines 82-88): write the whole mapping; a write failure
is caught and logged, leaving the file as it was. -/
def save_cache (w : World) (f : CacheFile) (entries : List (String × CacheEntry)) : CacheFile :=
  if w.writeOk then .ok entries else f

/-- `get_cached_result` (lines 90-98): reload the file, and return the
stored result only when the key is present and
`time.time() - entry['timestamp'] < CACHE_EXPIRY_HOURS * 3600`. -/
def get_cached_result (f : CacheFile) (now : Nat) (cache_key : String) : Option RQResult :=
  let cache := load_cache f
  match lookupEntry cache cache_key with
  | some entry =>
    if now - entry.timestamp < CACHE_EXPIRY_HOURS * 3600 then some entry.result else none
  | none => none

/-- `set_cached_result` (lines 100-111): reload, bind the key to a fresh
timestamped entry, save; every failure inside is caught. -/
def set_cached_result (w : World) (f : CacheFile) (now : Nat) (cache_key : String)
    (result : RQResult) : CacheFile :=
  let cache := load_cache f
  save_cache w f (insertEntry cache cache_key ⟨now, result⟩)

/-- One organism preset of `PROTEIN_CONFIG` (lines 33-57). -/
structure PresetConfig where
  proteins : List String
  strain_specific : List (String × String)
  organism_name : String
deriving DecidableEq, Repr

/-- Association-list lookup for the preset tables (Python `dict.get`). -/
def lookupStr : List (String × String) → String → Option String
  | [], _ => none
  | (k, v) :: rest, key => if k = key then some v else lookupStr rest key

/-- Preset lookup (Python `organism in PROTEIN_CONFIG` / indexing). -/
def lookupPreset : List (String × PresetConfig) → String → Option PresetConfig
  | [], _ => none
  | (k, v) :: rest, key => if k = key then some v else lookupPreset rest key

/-- `PROTEIN_CONFIG` (lines 33-57 of `sepi.py`), keyed by the preset
nicknames `"ecoli"` and `"klebsiella"`. -/
def PROTEIN_CONFIG : List (String × PresetConfig) :=
  [ ("ecoli",
      { proteins :=
          ["AcrA", "AcrB", "TolC", "AcrZ",
           "AcrR", "MarA", "MarR", "RamA", "RamR", "SoxS", "Rob", "EnvR",
           "AcrD", "AcrE", "AcrF", "MdtB", "MdtC"],
        strain_specific := [("AcrA", "K-12 MG1655"), ("AcrB", "K-12 MG1655")],
        organism_name := "Escherichia coli" }),
    ("klebsiella",
      { proteins := ["OqxA", "OqxB", "EefA", "EefB", "EefC", "KexD", "KexE", "KexF"],
        strain_specific := [],
        organism_name := "Klebsiella pneumoniae" }) ]

/-- Lines 150-158 of `sepi.py`: a preset key resolves to its canonical
organism name and per-protein strain override; any other organism string
is used directly, with no strain. -/
def resolveOrganism (organism protein_name : String) : String × Option String :=
  match lookupPreset PROTEIN_CONFIG organism with
  | some config => (config.organism_name, lookupStr config.strain_specific protein_name)
  | none => (organism, none)

/-- Lines 160-172 of `sepi.py`: the base query parts.  The strain clause,
when present, is `insert`ed at index 1 of the two-element list; the
biosample query, when present, is appended parenthesized. -/
def base_query_parts (protein_name organism : String) (biosample_query : Option String) :
    List String :=
  let resolved := resolveOrganism organism protein_name
  let organism_full_name := resolved.1
  let parts : List String :=
    match resolved.2 with
    | some strain =>
        [s!"\"{organism_full_name}\"[Organism]",
         s!"\"{strain}\"[Strain]",
         s!"\"{protein_name}\"[Protein Name]"]
    | none =>
        [s!"\"{organism_full_name}\"[Organism]",
         s!"\"{protein_name}\"[Protein Name]"]
  match biosample_query with
  | some bq => parts ++ [s!"({bq})"]
  | none => parts

/-- The `NOT (...)` resistance-keyword exclusion clause (line 180/192). -/
def notResistanceClause : String :=
  "NOT (resistance OR resistant OR multidrug OR hypothetical)"

/-- The RefSeq-only clause (line 180/192). -/
def refseqClause : String := "(srcdb_refseq[PROP])"

/-- The genome/assembly clause of tiers 0-2: the assembly-level filter
when one was requested, else the complete-genome filter (lines 176-199). -/
def genomeClause (assembly_level : Option String) : String :=
  match assembly_level with
  | some lvl => s!"(\"{lvl}\"[Assembly Level])"
  | none => "(\"complete genome\"[Filter])"

/-- `" AND ".join(parts)`: the parts in order, separated by `" AND "`. -/
def joinAnd : List String → String
  | [] => ""
  | x :: xs =>
    match xs with
    | [] => x
    | _ :: _ => x ++ " AND " ++ joinAnd xs

/-- Lines 175-199 of `sepi.py`: the ordered four-tier query list, from
most to least strict.  Deterministic by construction (a pure function of
its four arguments). -/
def buildQueries (protein_name organism : String)
    (assembly_level biosample_query : Option String) : List String :=
  let base := base_query_parts protein_name organism biosample_query
  let g := genomeClause assembly_level
  [ joinAnd (base ++ [g, refseqClause, notResistanceClause]),
    joinAnd (base ++ [g, refseqClause]),
    joinAnd (base ++ [g]),
    joinAnd base ]

/-- Whether the pattern is an initial segment of the character list. -/
def charsStartWith : List Char → List Char → Bool
  | _, [] => true
  | [], _ :: _ => false
  | c :: cs, p :: ps => c == p && charsStartWith cs ps

/-- Whether the pattern occurs as a contiguous segment somewhere in the
character list. -/
def charsContain : List Char → List Char → Bool
  | [], pat => charsStartWith [] pat
  | c :: cs, pat => charsStartWith (c :: cs) pat || charsContain cs pat

/-- Boolean substring occurrence on strings (kernel-computable). -/
def occursIn (pat s : String) : Bool := charsContain s.toList pat.toList

/-- Observable events of one `search_and_fetch_protein` invocation:
cache consultations (tier-indexed), the three kinds of remote call
(`search` and `fetchSeq`/`fetchSum` carry whether the call completed
without raising), and each `time.sleep(0.35)`. -/
inductive Event where
  | cacheCheck (tier : Nat)
  | search (tier : Nat) (ok : Bool)
  | fetchSeq (ok : Bool)
  | fetchSum (ok : Bool)
  | sleep
deriving DecidableEq, Repr

/-- Outcome of the tier loop (lines 205-230 of `sepi.py`): a cache hit
returned immediately, a winning candidate found at some tier (recording
the tier, the cache key of that tier's query, and the top identifier), or
all tiers exhausted. -/
inductive SearchOutcome where
  | cacheHit (r : RQResult)
  | found (tier : Nat) (key : String) (pid : String)
  | exhausted
deriving DecidableEq, Repr

/-- The tier loop of lines 205-230 of `sepi.py`, over the remaining
queries with `i` the index of the first one.  Per tier: compute the key,
consult the cache twice (the source's duplicated call at lines 208/211),
short-circuit on a hit; otherwise search remotely — an exception skips
the sleep and falls through to the next tier; a completed search sleeps
0.35 s, and a nonempty `IdList` stops the loop with its first id. -/
def searchTiers (w : World) (f : CacheFile) (now : Nat) : Nat → List String →
    List Event × SearchOutcome
  | _, [] => ([], .exhausted)
  | i, query :: rest =>
    let key := searchKey w query
    match get_cached_result f now key with
    | some r => ([.cacheCheck i, .cacheCheck i], .cacheHit r)
    | none =>
      match w.esearch query with
      | .error _ =>
        let next := searchTiers w f now (i + 1) rest
        (.cacheCheck i :: .cacheCheck i :: .search i false :: next.1, next.2)
      | .ok [] =>
        let next := searchTiers w f now (i + 1) rest
        (.cacheCheck i :: .cacheCheck i :: .search i true :: .sleep :: next.1, next.2)
      | .ok (pid :: _) =>
        ([.cacheCheck i, .cacheCheck i, .search i true, .sleep], .found i key pid)

/-- The fetch phase of lines 237-276 of `sepi.py`: fetch the FASTA text
(sleep 0.35 s on completion), parse it, fetch the summary (sleep again),
build the metadata dict — empty when the summary record list is empty —
cache the triple under the hit tier's key, and return it.  Any exception
is caught at line 274: the result is `none` and, since caching only
happens at line 271 after every step succeeded, the cache file is left
unchanged on every failure path. -/
def fetchPhase (w : World) (f : CacheFile) (now : Nat) (organism_full_name key pid : String) :
    List Event × CacheFile × Option RQResult :=
  match w.efetchFasta pid with
  | .error _ => ([.fetchSeq false], f, none)
  | .ok fasta_data =>
    match w.parseFasta fasta_data with
    | .error _ => ([.fetchSeq true, .sleep], f, none)
    | .ok seq_record =>
      let accession := seq_record.id
      let protein_length := seq_record.seqLen
      match w.esummary pid with
      | .error _ => ([.fetchSeq true, .sleep, .fetchSum false], f, none)
      | .ok summary_record =>
        let metadata : Metadata :=
          match summary_record with
          | [] => Metadata.empty
          | record :: _ =>
            { protein_length := some protein_length,
              source_strain := some (record.caption.getD "N/A"),
              ncbi_url := some ("https://www.ncbi.nlm.nih.gov/protein/" ++ pid),
              title := some (record.title.getD ""),
              organismLabel := some (record.organismField.getD organism_full_name) }
        let result : RQResult := ⟨accession, fasta_data, metadata⟩
        let f2 := set_cached_result w f now key result
        ([.fetchSeq true, .sleep, .fetchSum true, .sleep], f2, some result)

/-- The observable output of one `search_and_fetch_protein` invocation:
the search outcome (recorded for observability), the returned value
(`none` models Python `None`), the cache file afterwards, and the event
trace. -/
structure SFOutput where
  outcome : SearchOutcome
  result : Option RQResult
  file : CacheFile
  trace : List Event
deriving Repr

/-- `search_and_fetch_protein` (lines 142-276 of `sepi.py`).  The `email`
argument only sets `Entrez.email` and is omitted.  Resolve the organism,
build the four queries, run the tier loop; a cache hit is returned as-is,
exhaustion returns `none`, and a found candidate goes through the fetch
phase. -/
def search_and_fetch_protein (w : World) (f : CacheFile) (now : Nat)
    (protein_name organism : String) (assembly_level biosample_query : Option String) :
    SFOutput :=
  let organism_full_name := (resolveOrganism organism protein_name).1
  let queries := buildQueries protein_name organism assembly_level biosample_query
  match searchTiers w f now 0 queries with
  | (evs, .cacheHit r) => ⟨.cacheHit r, some r, f, evs⟩
  | (evs, .exhausted) => ⟨.exhausted, none, f, evs⟩
  | (evs, .found t key pid) =>
    let fetch := fetchPhase w f now organism_full_name key pid
    ⟨.found t key pid, fetch.2.2, fetch.2.1, evs ++ fetch.1⟩

/-- The argument record reaching the workflow part of `main` (after
`argparse` and the YAML merge, both out-of-scope I/O glue).  `Option`
models an absent flag; `protein_list`, when the flag is given, carries
the outcome of reading the named file (lines of text, or a read error). -/
structure Args where
  organism : Option String
  proteins : Option String
  protein_list : Option (Except Unit (List String))
  assembly_level : Option String
  biosample_query : Option String
  email : Option String

/-- ASCII whitespace, for modelling Python `str.strip()`. -/
def isSpaceChar (c : Char) : Bool :=
  c == ' ' || c == '\t' || c == '\n' || c == '\r'

/-- Python `str.strip()`: drop leading and trailing whitespace
(kernel-computable, over the character list). -/
def pyStrip (s : String) : String :=
  String.mk (((s.data.dropWhile isSpaceChar).reverse.dropWhile isSpaceChar).reverse)

/-- Split a character list on a separator character, Python
`str.split(sep)` style: `"a,,b"` gives three parts, `""` gives one. -/
def splitOnChar (c : Char) : List Char → List (List Char)
  | [] => [[]]
  | x :: rest =>
    let r := splitOnChar c rest
    if x == c then [] :: r
    else
      match r with
      | [] => [[x]]
      | h :: t => (x :: h) :: t

/-- Python `s.split(',')` (kernel-computable). -/
def pySplitCommas (s : String) : List String :=
  (splitOnChar ',' s.data).map String.mk

/-- Python `str.lower()` (kernel-computable). -/
def pyLower (s : String) : String := String.mk (s.data.map Char.toLower)

/-- Python truthiness of an optional string: an absent or empty string is
falsy (`if not args.organism:`). -/
def truthy : Option String → Option String
  | some s => if s = "" then none else some s
  | none => none

/-- Lines 466-486 of `sepi.py`: determine the target protein list.  A
protein-list file wins; reading it strips each line and keeps the
nonempty ones, and a read failure is fatal.  Otherwise a nonempty
`--proteins` string either expands `"all"` through a matching preset or
is split on commas and stripped.  Otherwise a preset organism supplies
its built-in panel, and any other organism is a configuration error. -/
def determine_target_proteins (args : Args) (organism : String) : Except Unit (List String) :=
  match args.protein_list with
  | some (.error _) => .error ()
  | some (.ok lines) =>
    .ok (lines.filterMap fun line => if pyStrip line = "" then none else some (pyStrip line))
  | none =>
    match truthy args.proteins with
    | some s =>
      if pyLower s = "all" then
        match lookupPreset PROTEIN_CONFIG organism with
        | some config => .ok config.proteins
        | none => .ok ((pySplitCommas s).map pyStrip)
      else .ok ((pySplitCommas s).map pyStrip)
    | none =>
      match lookupPreset PROTEIN_CONFIG organism with
      | some config => .ok config.proteins
      | none => .error ()

/-- One row of the `results` list built at lines 513-519 of `sepi.py`.
`protein_length` is `metadata.get('protein_length', 'N/A')`: `none`
renders as the `'N/A'` default. -/
structure ResultEntry where
  protein_name : String
  accession_number : String
  protein_length : Option Nat
  source_strain : String
  ncbi_url : String
deriving DecidableEq, Repr

/-- The `result_entry` dict of lines 513-519, with the `dict.get`
defaults: `'N/A'` for the strain and a URL rebuilt from the accession. -/
def mkResultEntry (protein : String) (r : RQResult) : ResultEntry :=
  { protein_name := protein,
    accession_number := r.accession,
    protein_length := r.metadata.protein_length,
    source_strain := r.metadata.source_strain.getD "N/A",
    ncbi_url := r.metadata.ncbi_url.getD ("https://www.ncbi.nlm.nih.gov/protein/" ++ r.accession) }

/-- The per-protein workflow loop of lines 506-531 of `sepi.py`: each
protein is searched and fetched against the current cache file; a success
appends a result row and its FASTA text, a failure is logged and skipped;
the cache file is threaded through.  Returns (results, fastas, file). -/
def runProteins (w : World) (now : Nat) (organism : String)
    (assembly_level biosample_query : Option String) :
    CacheFile → List String → List ResultEntry × List String × CacheFile
  | f, [] => ([], [], f)
  | f, protein :: rest =>
    let out := search_and_fetch_protein w f now protein organism assembly_level biosample_query
    match out.result with
    | some r =>
      let next := runProteins w now organism assembly_level biosample_query out.file rest
      (mkResultEntry protein r :: next.1, r.fasta :: next.2.1, next.2.2)
    | none => runProteins w now organism assembly_level biosample_query out.file rest

/-- Outcome of `main` from the validation step onward: a configuration
failure (`sys.exit(1)`) or a completed run with its exit code, result
rows, collected FASTA texts and final cache file.  An empty result list
exits 0 at line 540; a nonempty one falls off the end of `main`, also
exit code 0 (output-file failures are logged, not fatal). -/
inductive MainResult where
  | configFailure (exitCode : Nat)
  | completed (exitCode : Nat) (results : List ResultEntry) (fastas : List String) (f : CacheFile)
deriving Repr

/-- Lines 457-540 of `sepi.py`: validate organism and email (Python
truthiness), determine the target proteins, reject an empty panel, then
run the workflow loop; every completed run exits 0. -/
def mainRun (w : World) (now : Nat) (f : CacheFile) (args : Args) : MainResult :=
  match truthy args.organism with
  | none => .configFailure 1
  | some organism =>
    match truthy args.email with
    | none => .configFailure 1
    | some _ =>
      match determine_target_proteins args organism with
      | .error _ => .configFailure 1
      | .ok target_proteins =>
        if target_proteins = [] then .configFailure 1
        else
          let run := runProteins w now organism args.assembly_level args.biosample_query
            f target_proteins
          .completed 0 run.1 run.2.1 run.2.2

/-- Whether an event is a remote call, and whether that call completed
without raising. -/
def remoteOk : Event → Option Bool
  | .search _ ok => some ok
  | .fetchSeq ok => some ok
  | .fetchSum ok => some ok
  | _ => none

/-- The tier an event belongs to (cache checks and searches). -/
def tierOf : Event → Option Nat
  | .cacheCheck i => some i
  | .search i _ => some i
  | _ => none

/-- Strict spacing check: scanning the trace with a flag `owes` meaning
"a sleep is still owed before the next remote call", every remote call —
successful or not — owes a sleep before the next one.  This is the
claim's reading of the 0.35 s rate limit. -/
def spacedAll : Bool → List Event → Bool
  | _, [] => true
  | owes, e :: es =>
    match e with
    | .sleep => spacedAll false es
    | .search _ _ => !owes && spacedAll true es
    | .fetchSeq _ => !owes && spacedAll true es
    | .fetchSum _ => !owes && spacedAll true es
    | .cacheCheck _ => spacedAll owes es

/-- Relaxed spacing check: only a remote call that completed without
raising owes a sleep before the next remote call; a call that raised
imposes nothing (the source's `time.sleep(0.35)` sits inside the `try`). -/
def spacedSucc : Bool → List Event → Bool
  | _, [] => true
  | owes, e :: es =>
    match e with
    | .sleep => spacedSucc false es
    | .search _ ok => !owes && spacedSucc ok es
    | .fetchSeq ok => !owes && spacedSucc ok es
    | .fetchSum ok => !owes && spacedSucc ok es
    | .cacheCheck _ => spacedSucc owes es

/-- The value of the `owes` flag after scanning a trace (for composing
`spacedSucc` across concatenated traces). -/
def owesAfter : Bool → List Event → Bool
  | owes, [] => owes
  | owes, e :: es =>
    match e with
    | .sleep => owesAfter false es
    | .search _ ok => owesAfter ok es
    | .fetchSeq ok => owesAfter ok es
    | .fetchSum ok => owesAfter ok es
    | .cacheCheck _ => owesAfter owes es


/-! ## Query builder lemmas -/

/-- Appending one more part to a nonempty join adds one `" AND "`-separated
clause at the end. -/
theorem joinAnd_append_singleton : ∀ (xs : List String), xs ≠ [] → ∀ y : String,
    joinAnd (xs ++ [y]) = joinAnd xs ++ " AND " ++ y
  | [], h, _ => absurd rfl h
  | [_], _, _ => rfl
  | x :: x' :: xs, _, y => by
    have ih := joinAnd_append_singleton (x' :: xs) (by simp) y
    show x ++ " AND " ++ joinAnd ((x' :: xs) ++ [y]) =
      (x ++ " AND " ++ joinAnd (x' :: xs)) ++ " AND " ++ y
    rw [ih]
    simp [String.append_assoc]

/-- The base query parts list is never empty (it always holds at least the
organism and protein-name clauses). -/
theorem base_query_parts_ne_nil (protein_name organism : String) (bq : Option String) :
    base_query_parts protein_name organism bq ≠ [] := by
  unfold base_query_parts
  rcases h : (resolveOrganism organism protein_name).2 with _ | s <;>
    cases bq <;> simp [h]

/-- The four queries spelled out: each tier is the next tier plus one
more trailing clause. -/
theorem buildQueries_structure (protein_name organism : String)
    (assembly_level biosample_query : Option String) :
    buildQueries protein_name organism assembly_level biosample_query =
      [ ((joinAnd (base_query_parts protein_name organism biosample_query)
            ++ " AND " ++ genomeClause assembly_level)
            ++ " AND " ++ refseqClause) ++ " AND " ++ notResistanceClause,
        (joinAnd (base_query_parts protein_name organism biosample_query)
            ++ " AND " ++ genomeClause assembly_level) ++ " AND " ++ refseqClause,
        joinAnd (base_query_parts protein_name organism biosample_query)
            ++ " AND " ++ genomeClause assembly_level,
        joinAnd (base_query_parts protein_name organism biosample_query) ] := by
  have hne := base_query_parts_ne_nil protein_name organism biosample_query
  set base := base_query_parts protein_name organism biosample_query with hb
  set g := genomeClause assembly_level with hg
  have h1 : joinAnd (base ++ [g]) = joinAnd base ++ " AND " ++ g :=
    joinAnd_append_singleton base hne g
  have h2 : joinAnd (base ++ [g, refseqClause]) =
      (joinAnd base ++ " AND " ++ g) ++ " AND " ++ refseqClause := by
    have e : base ++ [g, refseqClause] = (base ++ [g]) ++ [refseqClause] := by simp
    rw [e, joinAnd_append_singleton _ (by simp) _, h1]
  have h3 : joinAnd (base ++ [g, refseqClause, notResistanceClause]) =
      ((joinAnd base ++ " AND " ++ g) ++ " AND " ++ refseqClause)
        ++ " AND " ++ notResistanceClause := by
    have e : base ++ [g, refseqClause, notResistanceClause] =
        (base ++ [g, refseqClause]) ++ [notResistanceClause] := by simp
    rw [e, joinAnd_append_singleton _ (by simp) _, h2]
  unfold buildQueries
  rw [← hb, ← hg]
  dsimp only
  rw [h1, h2, h3]

/-- C3: for every (protein_name, organism, assembly_level?, biosample_query?)
input the query builder produces exactly 4 query strings, strictest
first, where the tier-1 query is tier 0 minus the NOT-resistance clause,
tier 2 is tier 1 minus the RefSeq clause, tier 3 is tier 2 minus the
genome/assembly clause, and identical inputs yield identical lists. -/
theorem c3_four_tier_relaxation (protein_name organism : String)
    (assembly_level biosample_query : Option String)
    (pn2 org2 : String) (al2 bq2 : Option String)
    (hpn : protein_name = pn2) (horg : organism = org2)
    (hal : assembly_level = al2) (hbq : biosample_query = bq2) :
    (buildQueries protein_name organism assembly_level biosample_query).length = 4 ∧
    (∃ q3 q2 q1,
      q2 = q3 ++ " AND " ++ genomeClause assembly_level ∧
      q1 = q2 ++ " AND " ++ refseqClause ∧
      buildQueries protein_name organism assembly_level biosample_query =
        [q1 ++ " AND " ++ notResistanceClause, q1, q2, q3]) ∧
    buildQueries protein_name organism assembly_level biosample_query =
      buildQueries pn2 org2 al2 bq2 := by
  subst hpn horg hal hbq
  refine ⟨by rw [buildQueries_structure]; rfl, ?_, rfl⟩
  exact ⟨joinAnd (base_query_parts protein_name organism biosample_query), _, _,
    rfl, rfl, by rw [buildQueries_structure]⟩

/-- Witness for C3: the four tiers at a concrete input. -/
theorem c3_four_tier_relaxation_witness :
    (buildQueries "AcrA" "ecoli" none none).length = 4 ∧
    (∃ q3 q2 q1,
      q2 = q3 ++ " AND " ++ genomeClause none ∧
      q1 = q2 ++ " AND " ++ refseqClause ∧
      buildQueries "AcrA" "ecoli" none none =
        [q1 ++ " AND " ++ notResistanceClause, q1, q2, q3]) ∧
    buildQueries "AcrA" "ecoli" none none = buildQueries "AcrA" "ecoli" none none :=
  c3_four_tier_relaxation "AcrA" "ecoli" none none "AcrA" "ecoli" none none
    rfl rfl rfl rfl

/-! ## C1: the AcrA / Escherichia coli tier-0 query -/

set_option maxRecDepth 4000 in
/-- C1 counterexample: for protein "AcrA" and organism given as the
string "Escherichia coli", the tier-0 query does NOT contain the clause
`"K-12 MG1655"[Strain]` — `PROTEIN_CONFIG` is keyed by the nicknames
"ecoli" / "klebsiella", so the organism string "Escherichia coli" matches
no preset and the strain override is skipped (lines 151-158). -/
theorem c1_counterexample_no_strain_for_organism_name :
    occursIn "\"K-12 MG1655\"[Strain]"
      ((buildQueries "AcrA" "Escherichia coli" none none).headD "") = false := by
  decide

set_option maxRecDepth 8000 in
/-- C1 (amended): the strain override applies when the organism argument
is the preset key "ecoli": the tier-0 query then contains
`"Escherichia coli"[Organism]`, `"AcrA"[Protein Name]`,
`"K-12 MG1655"[Strain]`, the complete-genome filter, the RefSeq filter
and the NOT-resistance clause (and equals exactly their conjunction). -/
theorem c1_strain_override_for_preset_key :
    (buildQueries "AcrA" "ecoli" none none).headD "" =
      "\"Escherichia coli\"[Organism] AND \"K-12 MG1655\"[Strain] AND \"AcrA\"[Protein Name] AND (\"complete genome\"[Filter]) AND (srcdb_refseq[PROP]) AND NOT (resistance OR resistant OR multidrug OR hypothetical)" ∧
    occursIn "\"Escherichia coli\"[Organism]"
      ((buildQueries "AcrA" "ecoli" none none).headD "") = true ∧
    occursIn "\"AcrA\"[Protein Name]"
      ((buildQueries "AcrA" "ecoli" none none).headD "") = true ∧
    occursIn "\"K-12 MG1655\"[Strain]"
      ((buildQueries "AcrA" "ecoli" none none).headD "") = true ∧
    occursIn "(\"complete genome\"[Filter])"
      ((buildQueries "AcrA" "ecoli" none none).headD "") = true ∧
    occursIn "(srcdb_refseq[PROP])"
      ((buildQueries "AcrA" "ecoli" none none).headD "") = true ∧
    occursIn "NOT (resistance OR resistant OR multidrug OR hypothetical)"
      ((buildQueries "AcrA" "ecoli" none none).headD "") = true := by
  refine ⟨by decide, by decide, by decide, by decide, by decide, by decide, by decide⟩

/-! ## Cache store lemmas -/

/-- Looking up the key just inserted finds the new entry. -/
theorem lookupEntry_insertEntry_self :
    ∀ (l : List (String × CacheEntry)) (k : String) (e : CacheEntry),
      lookupEntry (insertEntry l k e) k = some e
  | [], k, e => by simp [insertEntry, lookupEntry]
  | (k0, e0) :: rest, k, e => by
    by_cases h : k0 = k
    · simp [insertEntry, lookupEntry, h]
    · simp [insertEntry, lookupEntry, h, lookupEntry_insertEntry_self rest k e]

/-- Inserting under one key leaves lookups of every other key unchanged. -/
theorem lookupEntry_insertEntry_ne :
    ∀ (l : List (String × CacheEntry)) (k k' : String) (e : CacheEntry), k ≠ k' →
      lookupEntry (insertEntry l k e) k' = lookupEntry l k'
  | [], k, k', e, h => by simp [insertEntry, lookupEntry, h]
  | (k0, e0) :: rest, k, k', e, h => by
    by_cases h0 : k0 = k
    · subst h0
      simp [insertEntry, lookupEntry, h]
    · simp [insertEntry, lookupEntry, h0, lookupEntry_insertEntry_ne rest k k' e h]

/-- Evaluation rule of `load_cache` on a readable file. -/
theorem load_cache_ok (l : List (String × CacheEntry)) : load_cache (.ok l) = l := rfl

/-- An entry that `get` refuses at time `now1` is still refused at any
later time `now2` (absence and staleness are both monotone). -/
theorem get_cached_result_none_mono (f : CacheFile) (now1 now2 : Nat) (k : String)
    (hle : now1 ≤ now2) (h : get_cached_result f now1 k = none) :
    get_cached_result f now2 k = none := by
  unfold get_cached_result at h ⊢
  cases hl : lookupEntry (load_cache f) k with
  | none => simp [hl]
  | some entry =>
    simp only [hl] at h ⊢
    split at h
    · exact absurd h (by simp)
    · next hfresh =>
      have : ¬ now2 - entry.timestamp < CACHE_EXPIRY_HOURS * 3600 := by
        intro hlt
        exact hfresh (lt_of_le_of_lt (Nat.sub_le_sub_right hle _) hlt)
      simp [this]

/-- C6: `get_cached_result` returns the stored value iff the entry's
timestamp is less than `CACHE_EXPIRY_HOURS * 3600` seconds before the
current time; a stale entry yields `None` yet remains physically stored —
a put under a different key preserves it, and only a put under the same
key overwrites it (with a fresh timestamp). -/
theorem c6_cache_expiry (w : World) (f : CacheFile) (now now2 : Nat)
    (key k' : String) (entry : CacheEntry) (v' : RQResult)
    (hlk : lookupEntry (load_cache f) key = some entry)
    (hw : w.writeOk = true) (hne : k' ≠ key) :
    (get_cached_result f now key = some entry.result ↔
      now - entry.timestamp < CACHE_EXPIRY_HOURS * 3600) ∧
    (¬ now - entry.timestamp < CACHE_EXPIRY_HOURS * 3600 →
      get_cached_result f now key = none) ∧
    lookupEntry (load_cache (set_cached_result w f now2 k' v')) key = some entry ∧
    lookupEntry (load_cache (set_cached_result w f now2 key v')) key =
      some ⟨now2, v'⟩ := by
  refine ⟨?_, ?_, ?_, ?_⟩
  · unfold get_cached_result
    simp only [hlk]
    split
    · next h => simp [h]
    · next h => simp [h]
  · intro h
    unfold get_cached_result
    simp [hlk, h]
  · unfold set_cached_result save_cache
    rw [hw]
    simp only [if_true, load_cache_ok]
    rw [lookupEntry_insertEntry_ne _ _ _ _ hne, hlk]
  · unfold set_cached_result save_cache
    rw [hw]
    simp only [if_true, load_cache_ok]
    rw [lookupEntry_insertEntry_self]

/-- A minimal success triple used in concrete scenarios. -/
def r0 : RQResult := ⟨"ACC1.1", ">sp P0AE06 acra\nMKT", Metadata.empty⟩

/-- A benign concrete world: identity hash, every search empty, every
fetch trivially successful, cache writes succeed. -/
def w0 : World :=
  { md5 := fun s => s,
    esearch := fun _ => .ok [],
    efetchFasta := fun _ => .ok "",
    parseFasta := fun _ => .ok ⟨"", 0⟩,
    esummary := fun _ => .ok [],
    writeOk := true }

/-- Witness for C6: a concrete one-entry cache file, read fresh at a time
inside the window, then overwritten and shadow-tested concretely. -/
theorem c6_cache_expiry_witness :
    (get_cached_result (CacheFile.ok [("k", ⟨100, r0⟩)]) 86499 "k" =
        some (CacheEntry.mk 100 r0).result ↔
      86499 - (CacheEntry.mk 100 r0).timestamp < CACHE_EXPIRY_HOURS * 3600) ∧
    (¬ 86499 - (CacheEntry.mk 100 r0).timestamp < CACHE_EXPIRY_HOURS * 3600 →
      get_cached_result (CacheFile.ok [("k", ⟨100, r0⟩)]) 86499 "k" = none) ∧
    lookupEntry
      (load_cache (set_cached_result w0 (CacheFile.ok [("k", ⟨100, r0⟩)]) 200 "k2" r0)) "k" =
      some ⟨100, r0⟩ ∧
    lookupEntry
      (load_cache (set_cached_result w0 (CacheFile.ok [("k", ⟨100, r0⟩)]) 200 "k" r0)) "k" =
      some ⟨200, r0⟩ :=
  c6_cache_expiry w0 (CacheFile.ok [("k", ⟨100, r0⟩)]) 86499 200 "k" "k2" ⟨100, r0⟩ r0
    (by simp [load_cache, lookupEntry]) rfl (by decide)

/-! ## Engine invariance lemmas -/

/-- The tier loop depends on the world only through `md5` and `esearch`,
and on the cache file only through its loaded contents. -/
theorem searchTiers_ext (w w' : World) (f f' : CacheFile) (now : Nat)
    (hm : w'.md5 = w.md5) (hs : w'.esearch = w.esearch)
    (hf : load_cache f' = load_cache f) :
    ∀ (qs : List String) (i : Nat), searchTiers w' f' now i qs = searchTiers w f now i qs := by
  intro qs
  induction qs with
  | nil => intro i; rfl
  | cons q rest ih =>
    intro i
    have hg : ∀ k, get_cached_result f' now k = get_cached_result f now k := by
      intro k
      unfold get_cached_result
      rw [hf]
    simp only [searchTiers, searchKey, get_cache_key, hm, hs, hg, ih]

/-- The fetch phase's trace and returned value depend on the world only
through its three fetch-side functions, not on the cache file or on
`writeOk`. -/
theorem fetchPhase_ext (w w' : World) (f f' : CacheFile) (now : Nat) (ofn key pid : String)
    (h1 : w'.efetchFasta = w.efetchFasta) (h2 : w'.parseFasta = w.parseFasta)
    (h3 : w'.esummary = w.esummary) :
    (fetchPhase w' f' now ofn key pid).1 = (fetchPhase w f now ofn key pid).1 ∧
    (fetchPhase w' f' now ofn key pid).2.2 = (fetchPhase w f now ofn key pid).2.2 := by
  rcases hfe : w.efetchFasta pid with e | fasta
  · simp [fetchPhase, h1, h2, h3, hfe]
  · rcases hpa : w.parseFasta fasta with e | sr
    · simp [fetchPhase, h1, h2, h3, hfe, hpa]
    · rcases hsu : w.esummary pid with e | summ
      · simp [fetchPhase, h1, h2, h3, hfe, hpa, hsu]
      · cases summ <;> simp [fetchPhase, h1, h2, h3, hfe, hpa, hsu]

/-- When cache writes fail, the fetch phase leaves the cache file exactly
as it was. -/
theorem fetchPhase_file_of_writeOk_false (w : World) (hw : w.writeOk = false)
    (f : CacheFile) (now : Nat) (ofn key pid : String) :
    (fetchPhase w f now ofn key pid).2.1 = f := by
  rcases hfe : w.efetchFasta pid with e | fasta
  · simp [fetchPhase, hfe]
  · rcases hpa : w.parseFasta fasta with e | sr
    · simp [fetchPhase, hfe, hpa]
    · rcases hsu : w.esummary pid with e | summ
      · simp [fetchPhase, hfe, hpa, hsu]
      · cases summ <;> simp [fetchPhase, hfe, hpa, hsu, set_cached_result, save_cache, hw]

/-- C9: cache I/O failures are non-fatal and leave retrieval behaving as
if uncached.  Flipping `writeOk` (a failing `put`) changes neither the
returned value nor the trace of `search_and_fetch_protein`, and with
failing writes the cache file is simply left unchanged; an unreadable or
undecodable cache file behaves exactly like an empty one. -/
theorem c9_cache_failures_nonfatal (w : World) (b : Bool) (f : CacheFile) (now : Nat)
    (protein_name organism : String) (assembly_level biosample_query : Option String) :
    ((search_and_fetch_protein { w with writeOk := b } f now
        protein_name organism assembly_level biosample_query).result =
      (search_and_fetch_protein w f now
        protein_name organism assembly_level biosample_query).result) ∧
    ((search_and_fetch_protein { w with writeOk := b } f now
        protein_name organism assembly_level biosample_query).trace =
      (search_and_fetch_protein w f now
        protein_name organism assembly_level biosample_query).trace) ∧
    ((search_and_fetch_protein { w with writeOk := false } f now
        protein_name organism assembly_level biosample_query).file = f) ∧
    ((search_and_fetch_protein w CacheFile.corrupt now
        protein_name organism assembly_level biosample_query).result =
      (search_and_fetch_protein w (CacheFile.ok []) now
        protein_name organism assembly_level biosample_query).result) ∧
    ((search_and_fetch_protein w CacheFile.corrupt now
        protein_name organism assembly_level biosample_query).trace =
      (search_and_fetch_protein w (CacheFile.ok []) now
        protein_name organism assembly_level biosample_query).trace) := by
  have hb : ∀ (g g' : CacheFile), load_cache g' = load_cache g →
      ((search_and_fetch_protein { w with writeOk := b } g' now
          protein_name organism assembly_level biosample_query).result =
        (search_and_fetch_protein w g now
          protein_name organism assembly_level biosample_query).result) ∧
      ((search_and_fetch_protein { w with writeOk := b } g' now
          protein_name organism assembly_level biosample_query).trace =
        (search_and_fetch_protein w g now
          protein_name organism assembly_level biosample_query).trace) := by
    intro g g' hg
    unfold search_and_fetch_protein
    dsimp only
    rw [searchTiers_ext w { w with writeOk := b } g g' now rfl rfl hg]
    rcases hsp : searchTiers w g now 0
      (buildQueries protein_name organism assembly_level biosample_query) with ⟨evs, out⟩
    cases out with
    | cacheHit r => exact ⟨rfl, rfl⟩
    | exhausted => exact ⟨rfl, rfl⟩
    | found t key pid =>
      have hext := fetchPhase_ext w { w with writeOk := b } g g' now
        (resolveOrganism organism protein_name).1 key pid rfl rfl rfl
      exact ⟨by simp [hext.2], by simp [hext.1]⟩
  refine ⟨(hb f f rfl).1, (hb f f rfl).2, ?_, ?_, ?_⟩
  · unfold search_and_fetch_protein
    dsimp only
    rw [searchTiers_ext w { w with writeOk := false } f f now rfl rfl rfl]
    rcases hsp : searchTiers w f now 0
      (buildQueries protein_name organism assembly_level biosample_query) with ⟨evs, out⟩
    cases out with
    | cacheHit r => rfl
    | exhausted => rfl
    | found t key pid =>
      simpa using fetchPhase_file_of_writeOk_false { w with writeOk := false }
        rfl f now (resolveOrganism organism protein_name).1 key pid
  · unfold search_and_fetch_protein
    dsimp only
    rw [searchTiers_ext w w CacheFile.corrupt (CacheFile.ok []) now rfl rfl rfl]
    rcases hsp : searchTiers w CacheFile.corrupt now 0
      (buildQueries protein_name organism assembly_level biosample_query) with ⟨evs, out⟩
    cases out with
    | cacheHit r => rfl
    | exhausted => rfl
    | found t key pid =>
      have hext := fetchPhase_ext w w CacheFile.corrupt (CacheFile.ok []) now
        (resolveOrganism organism protein_name).1 key pid rfl rfl rfl
      simp [hext.2]
  · unfold search_and_fetch_protein
    dsimp only
    rw [searchTiers_ext w w CacheFile.corrupt (CacheFile.ok []) now rfl rfl rfl]
    rcases hsp : searchTiers w CacheFile.corrupt now 0
      (buildQueries protein_name organism assembly_level biosample_query) with ⟨evs, out⟩
    cases out with
    | cacheHit r => rfl
    | exhausted => rfl
    | found t key pid =>
      have hext := fetchPhase_ext w w CacheFile.corrupt (CacheFile.ok []) now
        (resolveOrganism organism protein_name).1 key pid rfl rfl rfl
      simp [hext.1]

/-! ## Fetch-phase failure and degraded-metadata behavior -/

/-- Evaluation of `search_and_fetch_protein` when the tier loop ends in a
cache hit. -/
theorem search_and_fetch_cacheHit_eq (w : World) (f : CacheFile) (now : Nat)
    (protein_name organism : String) (assembly_level biosample_query : Option String)
    (evs : List Event) (r : RQResult)
    (h : searchTiers w f now 0 (buildQueries protein_name organism assembly_level
      biosample_query) = (evs, .cacheHit r)) :
    search_and_fetch_protein w f now protein_name organism assembly_level biosample_query =
      ⟨.cacheHit r, some r, f, evs⟩ := by
  unfold search_and_fetch_protein
  dsimp only
  rw [h]

/-- Evaluation of `search_and_fetch_protein` when all tiers are
exhausted. -/
theorem search_and_fetch_exhausted_eq (w : World) (f : CacheFile) (now : Nat)
    (protein_name organism : String) (assembly_level biosample_query : Option String)
    (evs : List Event)
    (h : searchTiers w f now 0 (buildQueries protein_name organism assembly_level
      biosample_query) = (evs, .exhausted)) :
    search_and_fetch_protein w f now protein_name organism assembly_level biosample_query =
      ⟨.exhausted, none, f, evs⟩ := by
  unfold search_and_fetch_protein
  dsimp only
  rw [h]

/-- Evaluation of `search_and_fetch_protein` when the tier loop found a
candidate: the fetch phase decides the rest. -/
theorem search_and_fetch_found_eq (w : World) (f : CacheFile) (now : Nat)
    (protein_name organism : String) (assembly_level biosample_query : Option String)
    (evs : List Event) (t : Nat) (key pid : String)
    (h : searchTiers w f now 0 (buildQueries protein_name organism assembly_level
      biosample_query) = (evs, .found t key pid)) :
    search_and_fetch_protein w f now protein_name organism assembly_level biosample_query =
      ⟨.found t key pid,
       (fetchPhase w f now (resolveOrganism organism protein_name).1 key pid).2.2,
       (fetchPhase w f now (resolveOrganism organism protein_name).1 key pid).2.1,
       evs ++ (fetchPhase w f now (resolveOrganism organism protein_name).1 key pid).1⟩ := by
  unfold search_and_fetch_protein
  dsimp only
  rw [h]


/-- On any failing step of the fetch phase (sequence fetch, FASTA parse,
or summary fetch) the returned value is `none` and the cache file is
untouched. -/
theorem fetchPhase_fail (w : World) (f : CacheFile) (now : Nat) (ofn key pid : String)
    (hfail : w.efetchFasta pid = .error () ∨
      (∃ fasta, w.efetchFasta pid = .ok fasta ∧ w.parseFasta fasta = .error ()) ∨
      (∃ fasta sr, w.efetchFasta pid = .ok fasta ∧ w.parseFasta fasta = .ok sr ∧
        w.esummary pid = .error ())) :
    (fetchPhase w f now ofn key pid).2.2 = none ∧
    (fetchPhase w f now ofn key pid).2.1 = f := by
  rcases hfail with h | ⟨fasta, h1, h2⟩ | ⟨fasta, sr, h1, h2, h3⟩
  · simp [fetchPhase, h]
  · simp [fetchPhase, h1, h2]
  · simp [fetchPhase, h1, h2, h3]

/-- C5: when the search phase produced a winning candidate but the
sequence fetch, the FASTA parse, or the subsequent summary fetch raises,
`search_and_fetch_protein` returns `None`: the already-fetched sequence
is discarded, nothing is stored in the cache (the file is unchanged), and
the exception is caught at line 274 rather than propagated (the function
still returns normally, which is what totality of this definition
models). -/
theorem c5_fetch_failure_discards (w : World) (f : CacheFile) (now : Nat)
    (protein_name organism : String) (assembly_level biosample_query : Option String)
    (t : Nat) (key pid : String)
    (hout : (search_and_fetch_protein w f now protein_name organism
        assembly_level biosample_query).outcome = .found t key pid)
    (hfail : w.efetchFasta pid = .error () ∨
      (∃ fasta, w.efetchFasta pid = .ok fasta ∧ w.parseFasta fasta = .error ()) ∨
      (∃ fasta sr, w.efetchFasta pid = .ok fasta ∧ w.parseFasta fasta = .ok sr ∧
        w.esummary pid = .error ())) :
    (search_and_fetch_protein w f now protein_name organism
        assembly_level biosample_query).result = none ∧
    (search_and_fetch_protein w f now protein_name organism
        assembly_level biosample_query).file = f := by
  have hff := fetchPhase_fail w f now (resolveOrganism organism protein_name).1 key pid hfail
  rcases hsp : searchTiers w f now 0
    (buildQueries protein_name organism assembly_level biosample_query) with ⟨evs, out⟩
  cases out with
  | cacheHit r =>
    rw [search_and_fetch_cacheHit_eq w f now protein_name organism assembly_level
      biosample_query evs r hsp] at hout
    simp at hout
  | exhausted =>
    rw [search_and_fetch_exhausted_eq w f now protein_name organism assembly_level
      biosample_query evs hsp] at hout
    simp at hout
  | found t2 key2 pid2 =>
    rw [search_and_fetch_found_eq w f now protein_name organism assembly_level
      biosample_query evs t2 key2 pid2 hsp] at hout ⊢
    dsimp only at hout ⊢
    simp only [SearchOutcome.found.injEq] at hout
    obtain ⟨ht, hk, hp⟩ := hout
    subst ht hk hp
    exact ⟨hff.1, hff.2⟩

/-- A concrete world whose searches always hit but whose sequence fetch
always raises. -/
def wFetchFail : World :=
  { md5 := fun s => s,
    esearch := fun _ => .ok ["id1"],
    efetchFasta := fun _ => .error (),
    parseFasta := fun _ => .error (),
    esummary := fun _ => .error (),
    writeOk := true }

set_option maxRecDepth 8000 in
/-- Witness for C5: with a tier-0 hit and a raising sequence fetch, the
concrete invocation returns `None` and caches nothing. -/
theorem c5_fetch_failure_discards_witness :
    (search_and_fetch_protein wFetchFail (CacheFile.ok []) 0 "P" "Org" none none).result =
      none ∧
    (search_and_fetch_protein wFetchFail (CacheFile.ok []) 0 "P" "Org" none none).file =
      CacheFile.ok [] :=
  c5_fetch_failure_discards wFetchFail (CacheFile.ok []) 0 "P" "Org" none none 0
    (searchKey wFetchFail ((buildQueries "P" "Org" none none).headD "")) "id1"
    (by decide) (Or.inl rfl)

/-- C10: when every fetch step succeeds but the summary record list is
empty, `search_and_fetch_protein` still returns a success triple whose
metadata dict is empty, and the report row built from it falls back to
every default: `Protein_Length` becomes `'N/A'` (modelled as `none`)
although the sequence length had been computed from the FASTA record,
`Source_Strain` becomes `'N/A'`, and `NCBI_URL` is rebuilt from the
accession. -/
theorem c10_empty_summary_metadata_defaults (w : World) (f : CacheFile) (now : Nat)
    (protein_name organism : String) (assembly_level biosample_query : Option String)
    (t : Nat) (key pid fasta : String) (sr : FastaRec)
    (hout : (search_and_fetch_protein w f now protein_name organism
        assembly_level biosample_query).outcome = .found t key pid)
    (hfetch : w.efetchFasta pid = .ok fasta)
    (hparse : w.parseFasta fasta = .ok sr)
    (hsumm : w.esummary pid = .ok []) :
    (search_and_fetch_protein w f now protein_name organism
        assembly_level biosample_query).result = some ⟨sr.id, fasta, Metadata.empty⟩ ∧
    mkResultEntry protein_name ⟨sr.id, fasta, Metadata.empty⟩ =
      ⟨protein_name, sr.id, none, "N/A",
        "https://www.ncbi.nlm.nih.gov/protein/" ++ sr.id⟩ := by
  constructor
  · rcases hsp : searchTiers w f now 0
      (buildQueries protein_name organism assembly_level biosample_query) with ⟨evs, out⟩
    cases out with
    | cacheHit r =>
      rw [search_and_fetch_cacheHit_eq w f now protein_name organism assembly_level
        biosample_query evs r hsp] at hout
      simp at hout
    | exhausted =>
      rw [search_and_fetch_exhausted_eq w f now protein_name organism assembly_level
        biosample_query evs hsp] at hout
      simp at hout
    | found t2 key2 pid2 =>
      rw [search_and_fetch_found_eq w f now protein_name organism assembly_level
        biosample_query evs t2 key2 pid2 hsp] at hout ⊢
      dsimp only at hout ⊢
      simp only [SearchOutcome.found.injEq] at hout
      obtain ⟨ht, hk, hp⟩ := hout
      subst ht hk hp
      simp [fetchPhase, hfetch, hparse, hsumm]
  · simp [mkResultEntry, Metadata.empty]

/-- A concrete world whose searches hit, whose fetch and parse succeed,
and whose summary call returns an empty record list. -/
def wEmptySummary : World :=
  { md5 := fun s => s,
    esearch := fun _ => .ok ["id9"],
    efetchFasta := fun _ => .ok ">sq desc\nMKTA",
    parseFasta := fun _ => .ok ⟨"ACC9.1", 4⟩,
    esummary := fun _ => .ok [],
    writeOk := true }

set_option maxRecDepth 8000 in
/-- Witness for C10 at a concrete input: empty-summary success with all
report defaults. -/
theorem c10_empty_summary_metadata_defaults_witness :
    (search_and_fetch_protein wEmptySummary (CacheFile.ok []) 0 "P" "Org" none none).result =
      some ⟨(FastaRec.mk "ACC9.1" 4).id, ">sq desc\nMKTA", Metadata.empty⟩ ∧
    mkResultEntry "P" ⟨(FastaRec.mk "ACC9.1" 4).id, ">sq desc\nMKTA", Metadata.empty⟩ =
      ⟨"P", (FastaRec.mk "ACC9.1" 4).id, none, "N/A",
        "https://www.ncbi.nlm.nih.gov/protein/" ++ (FastaRec.mk "ACC9.1" 4).id⟩ :=
  c10_empty_summary_metadata_defaults wEmptySummary (CacheFile.ok []) 0 "P" "Org" none none 0
    (searchKey wEmptySummary ((buildQueries "P" "Org" none none).headD "")) "id9"
    ">sq desc\nMKTA" ⟨"ACC9.1", 4⟩ (by decide) rfl rfl rfl

/-! ## C7: first hit stops the tier iteration -/

/-- If every query before some point is cache-missed and remotely missed
(error or empty id list), and that point's query is cache-missed but hits
remotely, the tier loop stops exactly there: it returns the hit tier's
index, cache key and top identifier, and every tier-indexed event in its
trace lies between the starting index and the hit tier. -/
theorem searchTiers_found_at (w : World) (f : CacheFile) (now : Nat) (pid : String)
    (ids : List String) :
    ∀ (pre : List String) (q : String) (post : List String) (i : Nat),
      (∀ p ∈ pre, get_cached_result f now (searchKey w p) = none ∧
        (w.esearch p = .error () ∨ w.esearch p = .ok [])) →
      get_cached_result f now (searchKey w q) = none →
      w.esearch q = .ok (pid :: ids) →
      ∃ evs, searchTiers w f now i (pre ++ q :: post) =
        (evs, SearchOutcome.found (i + pre.length) (searchKey w q) pid) ∧
        ∀ e ∈ evs, ∀ j, tierOf e = some j → i ≤ j ∧ j ≤ i + pre.length := by
  intro pre
  induction pre with
  | nil =>
    intro q post i hpre hq hhit
    refine ⟨[.cacheCheck i, .cacheCheck i, .search i true, .sleep], ?_, ?_⟩
    · simp [searchTiers, hq, hhit]
    · intro e he j hj
      simp only [List.mem_cons, List.not_mem_nil, or_false] at he
      rcases he with rfl | rfl | rfl | rfl <;> simp_all [tierOf]
  | cons p pre ih =>
    intro q post i hpre hq hhit
    have hp := hpre p (List.mem_cons_self p pre)
    have hrest : ∀ p2 ∈ pre, get_cached_result f now (searchKey w p2) = none ∧
        (w.esearch p2 = .error () ∨ w.esearch p2 = .ok []) :=
      fun p2 hm => hpre p2 (List.mem_cons_of_mem p hm)
    obtain ⟨evs, hev, hbound⟩ := ih q post (i + 1) hrest hq hhit
    rcases hp.2 with herr | hempty
    · refine ⟨.cacheCheck i :: .cacheCheck i :: .search i false :: evs, ?_, ?_⟩
      · simp only [List.cons_append, searchTiers, hp.1, herr, List.append_eq, hev,
          Prod.mk.injEq, SearchOutcome.found.injEq, List.length_cons, true_and, and_true,
          List.cons.injEq]
        omega
      · intro e he j hj
        simp only [List.mem_cons] at he
        rcases he with rfl | rfl | rfl | hm
        · simp [tierOf] at hj
          omega
        · simp [tierOf] at hj
          omega
        · simp [tierOf] at hj
          omega
        · have := hbound e hm j hj
          constructor
          · omega
          · simp [List.length_cons]
            omega
    · refine ⟨.cacheCheck i :: .cacheCheck i :: .search i true :: .sleep :: evs, ?_, ?_⟩
      · simp only [List.cons_append, searchTiers, hp.1, hempty, List.append_eq, hev,
          Prod.mk.injEq, SearchOutcome.found.injEq, List.length_cons, true_and, and_true,
          List.cons.injEq]
        omega
      · intro e he j hj
        simp only [List.mem_cons] at he
        rcases he with rfl | rfl | rfl | rfl | hm
        · simp [tierOf] at hj
          omega
        · simp [tierOf] at hj
          omega
        · simp [tierOf] at hj
          omega
        · simp [tierOf] at hj
        · have := hbound e hm j hj
          constructor
          · omega
          · simp [List.length_cons]
            omega

/-- Every event of the fetch phase is tierless (fetch and sleep events
carry no tier index). -/
theorem fetchPhase_trace_tierless (w : World) (f : CacheFile) (now : Nat)
    (ofn key pid : String) :
    ∀ e ∈ (fetchPhase w f now ofn key pid).1, tierOf e = none := by
  rcases hfe : w.efetchFasta pid with e0 | fasta
  · simp [fetchPhase, hfe, tierOf]
  · rcases hpa : w.parseFasta fasta with e0 | sr
    · simp [fetchPhase, hfe, hpa, tierOf]
    · rcases hsu : w.esummary pid with e0 | summ
      · simp [fetchPhase, hfe, hpa, hsu, tierOf]
      · cases summ <;> simp [fetchPhase, hfe, hpa, hsu, tierOf]

/-- C7: if the remote search at the first reached tier returns at least
one hit (every earlier tier was cache-missed and remotely missed), the
tier iteration stops there: the outcome records that tier's index, its
query's cache key, and the FIRST identifier of its hit list as the
winning candidate; and no query of any later tier is ever checked
against the cache or issued remotely — every tier-indexed event of the
whole trace has tier at most the hit tier, the remaining events being
tierless fetch-phase events. -/
theorem c7_first_hit_stops_iteration (w : World) (f : CacheFile) (now : Nat)
    (protein_name organism : String) (assembly_level biosample_query : Option String)
    (pre post : List String) (q pid : String) (ids : List String)
    (hsplit : buildQueries protein_name organism assembly_level biosample_query =
      pre ++ q :: post)
    (hpre : ∀ p ∈ pre, get_cached_result f now (searchKey w p) = none ∧
      (w.esearch p = .error () ∨ w.esearch p = .ok []))
    (hq : get_cached_result f now (searchKey w q) = none)
    (hhit : w.esearch q = .ok (pid :: ids)) :
    (search_and_fetch_protein w f now protein_name organism assembly_level
        biosample_query).outcome = .found pre.length (searchKey w q) pid ∧
    ∀ e ∈ (search_and_fetch_protein w f now protein_name organism assembly_level
        biosample_query).trace, ∀ j, tierOf e = some j → j ≤ pre.length := by
  obtain ⟨evs, hev, hbound⟩ :=
    searchTiers_found_at w f now pid ids pre q post 0 hpre hq hhit
  rw [Nat.zero_add] at hev
  have heq := search_and_fetch_found_eq w f now protein_name organism assembly_level
    biosample_query evs pre.length (searchKey w q) pid (by rw [hsplit]; exact hev)
  rw [heq]
  refine ⟨rfl, ?_⟩
  dsimp only
  intro e he j hj
  rw [List.mem_append] at he
  rcases he with h1 | h2
  · have := (hbound e h1 j hj).2
    omega
  · have hn := fetchPhase_trace_tierless w f now (resolveOrganism organism protein_name).1
      (searchKey w q) pid e h2
    rw [hn] at hj
    simp at hj

/-- The four concrete queries for protein "P", organism "Org", no
assembly level, no biosample query. -/
def qP0 : String := (buildQueries "P" "Org" none none).headD ""

/-- Tier-1 query of the same concrete request. -/
def qP1 : String := ((buildQueries "P" "Org" none none).drop 1).headD ""

/-- Tier-2 query of the same concrete request. -/
def qP2 : String := ((buildQueries "P" "Org" none none).drop 2).headD ""

/-- Tier-3 query of the same concrete request. -/
def qP3 : String := ((buildQueries "P" "Org" none none).drop 3).headD ""

/-- A concrete world whose search hits (with two ids) exactly on the
tier-1 query and misses elsewhere. -/
def wHitTier1 : World :=
  { md5 := fun s => s,
    esearch := fun q => if q = qP1 then .ok ["idB", "idC"] else .ok [],
    efetchFasta := fun _ => .ok "FB",
    parseFasta := fun _ => .ok ⟨"AB.1", 2⟩,
    esummary := fun _ => .ok [],
    writeOk := true }

set_option maxRecDepth 8000 in
/-- Witness for C7: a concrete run whose tier 0 misses and tier 1 hits,
stopping the iteration at tier 1 with the first of the two ids. -/
theorem c7_first_hit_stops_iteration_witness :
    (search_and_fetch_protein wHitTier1 (CacheFile.ok []) 0 "P" "Org" none none).outcome =
      .found [qP0].length (searchKey wHitTier1 qP1) "idB" ∧
    ∀ e ∈ (search_and_fetch_protein wHitTier1 (CacheFile.ok []) 0 "P" "Org"
        none none).trace, ∀ j, tierOf e = some j → j ≤ [qP0].length :=
  c7_first_hit_stops_iteration wHitTier1 (CacheFile.ok []) 0 "P" "Org" none none
    [qP0] [qP2, qP3] qP1 "idB" ["idC"]
    (by decide) (by decide) (by decide) (by decide)

/-! ## C4: rate-limit spacing -/

/-- Evaluation: the tier loop on an empty query list exhausts. -/
theorem searchTiers_nil (w : World) (f : CacheFile) (now i : Nat) :
    searchTiers w f now i [] = ([], .exhausted) := rfl

/-- Evaluation: a non-expired cache entry for the tier's key
short-circuits the loop. -/
theorem searchTiers_cons_hit (w : World) (f : CacheFile) (now i : Nat)
    (q : String) (rest : List String) (r : RQResult)
    (h : get_cached_result f now (searchKey w q) = some r) :
    searchTiers w f now i (q :: rest) =
      ([.cacheCheck i, .cacheCheck i], .cacheHit r) := by
  simp only [searchTiers]
  rw [h]

/-- Evaluation: a cache miss followed by a raising search attempt falls
through to the next tier with no sleep. -/
theorem searchTiers_cons_error (w : World) (f : CacheFile) (now i : Nat)
    (q : String) (rest : List String)
    (h : get_cached_result f now (searchKey w q) = none)
    (he : w.esearch q = .error ()) :
    searchTiers w f now i (q :: rest) =
      (.cacheCheck i :: .cacheCheck i :: .search i false ::
        (searchTiers w f now (i + 1) rest).1,
       (searchTiers w f now (i + 1) rest).2) := by
  simp only [searchTiers]
  rw [h, he]

/-- Evaluation: a cache miss and a completed search with an empty id list
sleeps and falls through to the next tier. -/
theorem searchTiers_cons_empty (w : World) (f : CacheFile) (now i : Nat)
    (q : String) (rest : List String)
    (h : get_cached_result f now (searchKey w q) = none)
    (he : w.esearch q = .ok []) :
    searchTiers w f now i (q :: rest) =
      (.cacheCheck i :: .cacheCheck i :: .search i true :: .sleep ::
        (searchTiers w f now (i + 1) rest).1,
       (searchTiers w f now (i + 1) rest).2) := by
  simp only [searchTiers]
  rw [h, he]

/-- Evaluation: a cache miss and a completed search with a nonempty id
list stops the loop, keeping the first identifier. -/
theorem searchTiers_cons_found (w : World) (f : CacheFile) (now i : Nat)
    (q : String) (rest : List String) (pid : String) (tl : List String)
    (h : get_cached_result f now (searchKey w q) = none)
    (he : w.esearch q = .ok (pid :: tl)) :
    searchTiers w f now i (q :: rest) =
      ([.cacheCheck i, .cacheCheck i, .search i true, .sleep],
       .found i (searchKey w q) pid) := by
  simp only [searchTiers]
  rw [h, he]

/-- `spacedSucc` across a concatenation: check the first part, then the
second starting from the flag the first part left behind. -/
theorem spacedSucc_append : ∀ (a b : List Event) (n : Bool),
    spacedSucc n (a ++ b) = (spacedSucc n a && spacedSucc (owesAfter n a) b)
  | [], b, n => by simp [spacedSucc, owesAfter]
  | e :: es, b, n => by
    cases e <;>
      simp [spacedSucc, owesAfter, spacedSucc_append es b, Bool.and_assoc]

/-- The search loop's trace is correctly spaced and ends owing no sleep:
every completed search is immediately followed by its sleep. -/
theorem searchTiers_spaced (w : World) (f : CacheFile) (now : Nat) :
    ∀ (qs : List String) (i : Nat),
      spacedSucc false (searchTiers w f now i qs).1 = true ∧
      owesAfter false (searchTiers w f now i qs).1 = false := by
  intro qs
  induction qs with
  | nil => intro i; exact ⟨rfl, rfl⟩
  | cons q rest ih =>
    intro i
    cases hget : get_cached_result f now (searchKey w q) with
    | some r =>
      rw [searchTiers_cons_hit w f now i q rest r hget]
      exact ⟨rfl, rfl⟩
    | none =>
      rcases hse : w.esearch q with e | ids
      · cases e
        rw [searchTiers_cons_error w f now i q rest hget hse]
        have hih := ih (i + 1)
        constructor <;> simp [spacedSucc, owesAfter, hih.1, hih.2]
      · cases ids with
        | nil =>
          rw [searchTiers_cons_empty w f now i q rest hget hse]
          have hih := ih (i + 1)
          constructor <;> simp [spacedSucc, owesAfter, hih.1, hih.2]
        | cons pid tl =>
          rw [searchTiers_cons_found w f now i q rest pid tl hget hse]
          exact ⟨rfl, rfl⟩

/-- The fetch phase's trace is correctly spaced when entered owing no
sleep: each completed fetch call is immediately followed by its sleep. -/
theorem fetchPhase_spaced (w : World) (f : CacheFile) (now : Nat) (ofn key pid : String) :
    spacedSucc false (fetchPhase w f now ofn key pid).1 = true := by
  rcases hfe : w.efetchFasta pid with e0 | fasta
  · simp [fetchPhase, hfe, spacedSucc]
  · rcases hpa : w.parseFasta fasta with e0 | sr
    · simp [fetchPhase, hfe, hpa, spacedSucc]
    · rcases hsu : w.esummary pid with e0 | summ
      · simp [fetchPhase, hfe, hpa, hsu, spacedSucc]
      · cases summ <;> simp [fetchPhase, hfe, hpa, hsu, spacedSucc]

/-- C4 (amended): the 0.35 s spacing is enforced after every remote call
that completes without raising — in any trace of
`search_and_fetch_protein`, a remote call that completed is always
followed by a sleep before the next remote call.  (The claim's stronger
reading — spacing around every remote call on every control path — fails
on the exception path: `time.sleep` sits inside the `try`, so a raising
search attempt falls through to the next tier's search with no sleep; see
the counterexample.) -/
theorem c4_amended_spacing_after_success (w : World) (f : CacheFile) (now : Nat)
    (protein_name organism : String) (assembly_level biosample_query : Option String) :
    spacedSucc false (search_and_fetch_protein w f now protein_name organism
      assembly_level biosample_query).trace = true := by
  rcases hsp : searchTiers w f now 0
    (buildQueries protein_name organism assembly_level biosample_query) with ⟨evs, out⟩
  have hs := searchTiers_spaced w f now
    (buildQueries protein_name organism assembly_level biosample_query) 0
  rw [hsp] at hs
  cases out with
  | cacheHit r =>
    rw [search_and_fetch_cacheHit_eq w f now protein_name organism assembly_level
      biosample_query evs r hsp]
    exact hs.1
  | exhausted =>
    rw [search_and_fetch_exhausted_eq w f now protein_name organism assembly_level
      biosample_query evs hsp]
    exact hs.1
  | found t key pid =>
    rw [search_and_fetch_found_eq w f now protein_name organism assembly_level
      biosample_query evs t key pid hsp]
    dsimp only
    rw [spacedSucc_append, hs.1, hs.2, fetchPhase_spaced]
    rfl

/-- A concrete world whose search raises on the tier-0 query and hits on
every other query. -/
def wRaiseTier0 : World :=
  { md5 := fun s => s,
    esearch := fun q => if q = qP0 then .error () else .ok ["idD"],
    efetchFasta := fun _ => .ok "FD",
    parseFasta := fun _ => .ok ⟨"AD.1", 2⟩,
    esummary := fun _ => .ok [],
    writeOk := true }

set_option maxRecDepth 8000 in
/-- C4 counterexample: on the path where the tier-0 search attempt
raises, no sleep is inserted before the tier-1 search — the trace
violates the strict every-remote-call spacing discipline (`spacedAll`),
so the claim's "on every control path including the path where a search
attempt raises" reading is false. -/
theorem c4_counterexample_no_sleep_after_raising_search :
    spacedAll false (search_and_fetch_protein wRaiseTier0 (CacheFile.ok []) 0 "P" "Org"
      none none).trace = false := by
  decide

/-! ## C2: second identical run and the cache -/

/-- The tier index of a found outcome is at least the loop's starting
index. -/
theorem searchTiers_found_ge (w : World) (f : CacheFile) (now : Nat) :
    ∀ (qs : List String) (i t : Nat) (k p : String) (evs : List Event),
      searchTiers w f now i qs = (evs, .found t k p) → i ≤ t := by
  intro qs
  induction qs with
  | nil =>
    intro i t k p evs h
    rw [searchTiers_nil] at h
    simp at h
  | cons q rest ih =>
    intro i t k p evs h
    cases hget : get_cached_result f now (searchKey w q) with
    | some r =>
      rw [searchTiers_cons_hit w f now i q rest r hget] at h
      simp at h
    | none =>
      rcases hse : w.esearch q with e | ids
      · cases e
        rw [searchTiers_cons_error w f now i q rest hget hse] at h
        simp only [Prod.mk.injEq] at h
        have := ih (i + 1) t k p (searchTiers w f now (i + 1) rest).1
          (by rw [← h.2])
        omega
      · cases ids with
        | nil =>
          rw [searchTiers_cons_empty w f now i q rest hget hse] at h
          simp only [Prod.mk.injEq] at h
          have := ih (i + 1) t k p (searchTiers w f now (i + 1) rest).1
            (by rw [← h.2])
          omega
        | cons pid tl =>
          rw [searchTiers_cons_found w f now i q rest pid tl hget hse] at h
          simp only [Prod.mk.injEq, SearchOutcome.found.injEq] at h
          omega

/-- Re-running the tier loop against a cache that now serves the hit
key (and still misses every key the first run missed): the loop
short-circuits with the cached value, performs no fetch, and searches
only at tiers strictly below the first run's hit tier. -/
theorem searchTiers_after_cache (w : World) (f f2 : CacheFile) (now1 now2 : Nat)
    (r : RQResult) (key : String)
    (hkey : get_cached_result f2 now2 key = some r)
    (hother : ∀ k, k ≠ key → get_cached_result f now1 k = none →
      get_cached_result f2 now2 k = none) :
    ∀ (qs : List String) (i t : Nat) (evs : List Event) (pid : String),
      searchTiers w f now1 i qs = (evs, .found t key pid) →
      ∃ evs2, searchTiers w f2 now2 i qs = (evs2, .cacheHit r) ∧
        (∀ j b, Event.search j b ∈ evs2 → j < t) ∧
        (∀ b, Event.fetchSeq b ∉ evs2 ∧ Event.fetchSum b ∉ evs2) := by
  intro qs
  induction qs with
  | nil =>
    intro i t evs pid h
    rw [searchTiers_nil] at h
    simp at h
  | cons q rest ih =>
    intro i t evs pid h
    cases hget : get_cached_result f now1 (searchKey w q) with
    | some r1 =>
      rw [searchTiers_cons_hit w f now1 i q rest r1 hget] at h
      simp at h
    | none =>
      by_cases hqk : searchKey w q = key
      · -- run 2 hits the cache at this very tier
        refine ⟨[.cacheCheck i, .cacheCheck i], ?_, ?_, ?_⟩
        · rw [searchTiers_cons_hit w f2 now2 i q rest r (hqk ▸ hkey)]
        · intro j b hj
          simp at hj
        · intro b
          constructor <;> simp
      · have hmiss2 : get_cached_result f2 now2 (searchKey w q) = none :=
          hother (searchKey w q) hqk hget
        rcases hse : w.esearch q with e | ids
        · cases e
          rw [searchTiers_cons_error w f now1 i q rest hget hse] at h
          simp only [Prod.mk.injEq] at h
          have hrest : searchTiers w f now1 (i + 1) rest =
              ((searchTiers w f now1 (i + 1) rest).1, .found t key pid) := by
            rw [← h.2]
          obtain ⟨evs2, hev2, hs2, hf2⟩ :=
            ih (i + 1) t (searchTiers w f now1 (i + 1) rest).1 pid hrest
          have hge := searchTiers_found_ge w f now1 rest (i + 1) t key pid
            (searchTiers w f now1 (i + 1) rest).1 hrest
          refine ⟨.cacheCheck i :: .cacheCheck i :: .search i false :: evs2, ?_, ?_, ?_⟩
          · rw [searchTiers_cons_error w f2 now2 i q rest hmiss2 hse, hev2]
          · intro j b hj
            simp only [List.mem_cons] at hj
            rcases hj with h1 | h1 | h1 | h1
            · cases h1
            · cases h1
            · cases h1
              omega
            · exact hs2 j b h1
          · intro b
            have := hf2 b
            constructor <;> simp [this.1, this.2]
        · cases ids with
          | nil =>
            rw [searchTiers_cons_empty w f now1 i q rest hget hse] at h
            simp only [Prod.mk.injEq] at h
            have hrest : searchTiers w f now1 (i + 1) rest =
                ((searchTiers w f now1 (i + 1) rest).1, .found t key pid) := by
              rw [← h.2]
            obtain ⟨evs2, hev2, hs2, hf2⟩ :=
              ih (i + 1) t (searchTiers w f now1 (i + 1) rest).1 pid hrest
            have hge := searchTiers_found_ge w f now1 rest (i + 1) t key pid
              (searchTiers w f now1 (i + 1) rest).1 hrest
            refine ⟨.cacheCheck i :: .cacheCheck i :: .search i true :: .sleep :: evs2,
              ?_, ?_, ?_⟩
            · rw [searchTiers_cons_empty w f2 now2 i q rest hmiss2 hse, hev2]
            · intro j b hj
              simp only [List.mem_cons] at hj
              rcases hj with h1 | h1 | h1 | h1 | h1
              · cases h1
              · cases h1
              · cases h1
                omega
              · cases h1
              · exact hs2 j b h1
            · intro b
              have := hf2 b
              constructor <;> simp [this.1, this.2]
          | cons pid1 tl =>
            rw [searchTiers_cons_found w f now1 i q rest pid1 tl hget hse] at h
            simp only [Prod.mk.injEq, SearchOutcome.found.injEq] at h
            exact absurd h.2.2.1 hqk

/-- A successful fetch phase stored exactly its returned triple under the
hit key. -/
theorem fetchPhase_success_file (w : World) (f : CacheFile) (now : Nat)
    (ofn key pid : String) (r : RQResult)
    (h : (fetchPhase w f now ofn key pid).2.2 = some r) :
    (fetchPhase w f now ofn key pid).2.1 = set_cached_result w f now key r := by
  rcases hfe : w.efetchFasta pid with e0 | fasta
  · simp [fetchPhase, hfe] at h
  · rcases hpa : w.parseFasta fasta with e0 | sr
    · simp [fetchPhase, hfe, hpa] at h
    · rcases hsu : w.esummary pid with e0 | summ
      · simp [fetchPhase, hfe, hpa, hsu] at h
      · cases summ with
        | nil =>
          simp only [fetchPhase, hfe, hpa, hsu, Option.some.injEq] at h ⊢
          rw [← h]
        | cons s0 stl =>
          simp only [fetchPhase, hfe, hpa, hsu, Option.some.injEq] at h ⊢
          rw [← h]

/-- After a successful put, `get` at the same key within the expiry
window returns the stored value. -/
theorem get_after_put_same_key (w : World) (hw : w.writeOk = true) (f : CacheFile)
    (now1 now2 : Nat) (hwin : now2 - now1 < CACHE_EXPIRY_HOURS * 3600)
    (key : String) (r : RQResult) :
    get_cached_result (set_cached_result w f now1 key r) now2 key = some r := by
  unfold set_cached_result save_cache
  rw [hw]
  simp only [if_true]
  unfold get_cached_result
  rw [load_cache_ok]
  dsimp only
  rw [lookupEntry_insertEntry_self]
  simp [hwin]

/-- After a put under one key, `get` at a different key that was absent
or stale before stays absent or stale at any later time. -/
theorem get_after_put_other_key (w : World) (f : CacheFile) (now1 now2 : Nat)
    (hle : now1 ≤ now2) (key k : String) (hne : k ≠ key) (r : RQResult)
    (hnone : get_cached_result f now1 k = none) :
    get_cached_result (set_cached_result w f now1 key r) now2 k = none := by
  have h2 : get_cached_result f now2 k = none :=
    get_cached_result_none_mono f now1 now2 k hle hnone
  unfold set_cached_result save_cache
  cases hwv : w.writeOk with
  | false => simpa using h2
  | true =>
    simp only [if_true]
    unfold get_cached_result at h2 ⊢
    rw [load_cache_ok]
    dsimp only at h2 ⊢
    rw [lookupEntry_insertEntry_ne _ _ _ _ (Ne.symm hne)]
    exact h2

/-- C2 (amended): after a first run that found its candidate at some tier
and successfully cached its result, a second identical run inside the
24-hour window returns the identical triple, served from the cache: the
tier loop stops at the hit tier's key with a cache hit, the cache file is
unchanged, no fetch or summary call is issued, and remote searches are
re-issued only for tiers strictly before the hit tier — in particular
none at all when the hit was at tier 0.  (The claim's stronger "issues no
new remote search call" fails when the hit tier is positive, because only
the hit tier's key was cached: see the counterexample.) -/
theorem c2_amended_second_run_served_from_cache (w : World) (f : CacheFile)
    (now1 now2 : Nat) (protein_name organism : String)
    (assembly_level biosample_query : Option String)
    (t : Nat) (key pid : String) (r : RQResult)
    (hw : w.writeOk = true) (hle : now1 ≤ now2)
    (hwin : now2 - now1 < CACHE_EXPIRY_HOURS * 3600)
    (hout : (search_and_fetch_protein w f now1 protein_name organism assembly_level
      biosample_query).outcome = .found t key pid)
    (hres : (search_and_fetch_protein w f now1 protein_name organism assembly_level
      biosample_query).result = some r) :
    (search_and_fetch_protein w (search_and_fetch_protein w f now1 protein_name organism
        assembly_level biosample_query).file now2 protein_name organism assembly_level
        biosample_query).result = some r ∧
    (search_and_fetch_protein w (search_and_fetch_protein w f now1 protein_name organism
        assembly_level biosample_query).file now2 protein_name organism assembly_level
        biosample_query).outcome = .cacheHit r ∧
    (search_and_fetch_protein w (search_and_fetch_protein w f now1 protein_name organism
        assembly_level biosample_query).file now2 protein_name organism assembly_level
        biosample_query).file = (search_and_fetch_protein w f now1 protein_name organism
        assembly_level biosample_query).file ∧
    (∀ j b, Event.search j b ∈ (search_and_fetch_protein w (search_and_fetch_protein w f
        now1 protein_name organism assembly_level biosample_query).file now2 protein_name
        organism assembly_level biosample_query).trace → j < t) ∧
    (∀ b, Event.fetchSeq b ∉ (search_and_fetch_protein w (search_and_fetch_protein w f
        now1 protein_name organism assembly_level biosample_query).file now2 protein_name
        organism assembly_level biosample_query).trace ∧
      Event.fetchSum b ∉ (search_and_fetch_protein w (search_and_fetch_protein w f
        now1 protein_name organism assembly_level biosample_query).file now2 protein_name
        organism assembly_level biosample_query).trace) := by
  rcases hsp : searchTiers w f now1 0
    (buildQueries protein_name organism assembly_level biosample_query) with ⟨evs, out⟩
  cases out with
  | cacheHit r1 =>
    rw [search_and_fetch_cacheHit_eq w f now1 protein_name organism assembly_level
      biosample_query evs r1 hsp] at hout
    simp at hout
  | exhausted =>
    rw [search_and_fetch_exhausted_eq w f now1 protein_name organism assembly_level
      biosample_query evs hsp] at hout
    simp at hout
  | found t1 key1 pid1 =>
    have heq1 := search_and_fetch_found_eq w f now1 protein_name organism assembly_level
      biosample_query evs t1 key1 pid1 hsp
    rw [heq1] at hout hres ⊢
    dsimp only at hout hres ⊢
    simp only [SearchOutcome.found.injEq] at hout
    obtain ⟨ht, hk, hp⟩ := hout
    subst ht hk hp
    have hfile : (fetchPhase w f now1 (resolveOrganism organism protein_name).1 key1
        pid1).2.1 = set_cached_result w f now1 key1 r :=
      fetchPhase_success_file w f now1 (resolveOrganism organism protein_name).1 key1 pid1
        r hres
    rw [hfile]
    have hkey : get_cached_result (set_cached_result w f now1 key1 r) now2 key1 =
        some r := get_after_put_same_key w hw f now1 now2 hwin key1 r
    have hother : ∀ k, k ≠ key1 → get_cached_result f now1 k = none →
        get_cached_result (set_cached_result w f now1 key1 r) now2 k = none :=
      fun k hne hnone => get_after_put_other_key w f now1 now2 hle key1 k hne r hnone
    obtain ⟨evs2, hev2, hs2, hf2⟩ := searchTiers_after_cache w f
      (set_cached_result w f now1 key1 r) now1 now2 r key1 hkey hother
      (buildQueries protein_name organism assembly_level biosample_query) 0 t1 evs pid1 hsp
    have heq2 := search_and_fetch_cacheHit_eq w (set_cached_result w f now1 key1 r) now2
      protein_name organism assembly_level biosample_query evs2 r hev2
    rw [heq2]
    exact ⟨rfl, rfl, rfl, fun j b hj => hs2 j b hj, fun b => hf2 b⟩

/-- A concrete world for the cache round-trip: tier-0 search completes
with no hits, tier-1 search hits, every fetch step succeeds, cache
writes succeed. -/
def wCacheT1 : World :=
  { md5 := fun s => s,
    esearch := fun q => if q = qP1 then .ok ["idE"] else .ok [],
    efetchFasta := fun _ => .ok "FE",
    parseFasta := fun _ => .ok ⟨"AE.1", 2⟩,
    esummary := fun _ => .ok [],
    writeOk := true }

set_option maxRecDepth 10000 in
/-- C2 counterexample: the first run hits at tier 1 and caches only the
tier-1 key; the second identical run returns the identical result but
DOES issue a new remote search call (the tier-0 search re-runs, since no
miss marker was cached for tier 0) — refuting "issues no new remote
search call ... bypassing all later tiers and all remote calls". -/
theorem c2_counterexample_tier0_search_reissued :
    (search_and_fetch_protein wCacheT1
        (search_and_fetch_protein wCacheT1 (CacheFile.ok []) 1000 "P" "Org" none none).file
        1000 "P" "Org" none none).result =
      (search_and_fetch_protein wCacheT1 (CacheFile.ok []) 1000 "P" "Org" none
        none).result ∧
    Event.search 0 true ∈
      (search_and_fetch_protein wCacheT1
        (search_and_fetch_protein wCacheT1 (CacheFile.ok []) 1000 "P" "Org" none none).file
        1000 "P" "Org" none none).trace := by
  decide

set_option maxRecDepth 10000 in
/-- Witness for C2 (amended) at the same concrete world: the second run
is served from the tier-1 cache entry, leaves the file unchanged, issues
no fetch, and searches only below tier 1. -/
theorem c2_amended_second_run_served_from_cache_witness :
    (search_and_fetch_protein wCacheT1 (search_and_fetch_protein wCacheT1
        (CacheFile.ok []) 1000 "P" "Org" none none).file 1000 "P" "Org" none
        none).result = some ⟨"AE.1", "FE", Metadata.empty⟩ ∧
    (search_and_fetch_protein wCacheT1 (search_and_fetch_protein wCacheT1
        (CacheFile.ok []) 1000 "P" "Org" none none).file 1000 "P" "Org" none
        none).outcome = .cacheHit ⟨"AE.1", "FE", Metadata.empty⟩ ∧
    (search_and_fetch_protein wCacheT1 (search_and_fetch_protein wCacheT1
        (CacheFile.ok []) 1000 "P" "Org" none none).file 1000 "P" "Org" none
        none).file = (search_and_fetch_protein wCacheT1 (CacheFile.ok []) 1000 "P" "Org"
        none none).file ∧
    (∀ j b, Event.search j b ∈ (search_and_fetch_protein wCacheT1
        (search_and_fetch_protein wCacheT1 (CacheFile.ok []) 1000 "P" "Org" none
        none).file 1000 "P" "Org" none none).trace → j < 1) ∧
    (∀ b, Event.fetchSeq b ∉ (search_and_fetch_protein wCacheT1
        (search_and_fetch_protein wCacheT1 (CacheFile.ok []) 1000 "P" "Org" none
        none).file 1000 "P" "Org" none none).trace ∧
      Event.fetchSum b ∉ (search_and_fetch_protein wCacheT1
        (search_and_fetch_protein wCacheT1 (CacheFile.ok []) 1000 "P" "Org" none
        none).file 1000 "P" "Org" none none).trace) :=
  c2_amended_second_run_served_from_cache wCacheT1 (CacheFile.ok []) 1000 1000 "P" "Org"
    none none 1 (searchKey wCacheT1 qP1) "idE" ⟨"AE.1", "FE", Metadata.empty⟩
    rfl (by decide) (by decide) (by decide) (by decide)

/-! ## C8: exhausted tiers, the result list, and exit codes -/

/-- A found outcome names the key of one of the queries in the list, and
that query's remote search returned a nonempty id list headed by the
candidate. -/
theorem searchTiers_found_src (w : World) (f : CacheFile) (now : Nat) :
    ∀ (qs : List String) (i t : Nat) (k pid : String) (evs : List Event),
      searchTiers w f now i qs = (evs, .found t k pid) →
      ∃ q ∈ qs, k = searchKey w q ∧ ∃ tl, w.esearch q = .ok (pid :: tl) := by
  intro qs
  induction qs with
  | nil =>
    intro i t k pid evs h
    rw [searchTiers_nil] at h
    simp at h
  | cons q rest ih =>
    intro i t k pid evs h
    cases hget : get_cached_result f now (searchKey w q) with
    | some r =>
      rw [searchTiers_cons_hit w f now i q rest r hget] at h
      simp at h
    | none =>
      rcases hse : w.esearch q with e | ids
      · cases e
        rw [searchTiers_cons_error w f now i q rest hget hse] at h
        simp only [Prod.mk.injEq] at h
        obtain ⟨q2, hmem, hk, tl, hsearch⟩ :=
          ih (i + 1) t k pid (searchTiers w f now (i + 1) rest).1 (by rw [← h.2])
        exact ⟨q2, List.mem_cons_of_mem q hmem, hk, tl, hsearch⟩
      · cases ids with
        | nil =>
          rw [searchTiers_cons_empty w f now i q rest hget hse] at h
          simp only [Prod.mk.injEq] at h
          obtain ⟨q2, hmem, hk, tl, hsearch⟩ :=
            ih (i + 1) t k pid (searchTiers w f now (i + 1) rest).1 (by rw [← h.2])
          exact ⟨q2, List.mem_cons_of_mem q hmem, hk, tl, hsearch⟩
        | cons pid1 tl =>
          rw [searchTiers_cons_found w f now i q rest pid1 tl hget hse] at h
          simp only [Prod.mk.injEq, SearchOutcome.found.injEq] at h
          refine ⟨q, List.mem_cons_self q rest, h.2.2.1.symm, tl, ?_⟩
          rw [hse, h.2.2.2]

/-- The fetch phase either leaves the cache file unchanged or stores one
entry under the given key. -/
theorem fetchPhase_file_cases (w : World) (f : CacheFile) (now : Nat)
    (ofn key pid : String) :
    (fetchPhase w f now ofn key pid).2.1 = f ∨
    ∃ r, (fetchPhase w f now ofn key pid).2.1 = set_cached_result w f now key r := by
  rcases hfe : w.efetchFasta pid with e0 | fasta
  · left; simp [fetchPhase, hfe]
  · rcases hpa : w.parseFasta fasta with e0 | sr
    · left; simp [fetchPhase, hfe, hpa]
    · rcases hsu : w.esummary pid with e0 | summ
      · left; simp [fetchPhase, hfe, hpa, hsu]
      · right
        cases summ with
        | nil =>
          exact ⟨⟨sr.id, fasta, Metadata.empty⟩, by simp [fetchPhase, hfe, hpa, hsu]⟩
        | cons s0 stl =>
          refine ⟨⟨sr.id, fasta,
            ⟨some sr.seqLen, some (s0.caption.getD "N/A"),
             some ("https://www.ncbi.nlm.nih.gov/protein/" ++ pid),
             some (s0.title.getD ""), some (s0.organismField.getD ofn)⟩⟩, ?_⟩
          simp [fetchPhase, hfe, hpa, hsu]

/-- One invocation either leaves the cache file unchanged or stores one
entry under the key of one of its own queries — and only a query whose
remote search returned a nonempty id list. -/
theorem search_and_fetch_file_cases (w : World) (f : CacheFile) (now : Nat)
    (p org : String) (al bq : Option String) :
    (search_and_fetch_protein w f now p org al bq).file = f ∨
    ∃ q ∈ buildQueries p org al bq, ∃ pid tl r,
      w.esearch q = .ok (pid :: tl) ∧
      (search_and_fetch_protein w f now p org al bq).file =
        set_cached_result w f now (searchKey w q) r := by
  rcases hsp : searchTiers w f now 0 (buildQueries p org al bq) with ⟨evs, out⟩
  cases out with
  | cacheHit r =>
    left
    rw [search_and_fetch_cacheHit_eq w f now p org al bq evs r hsp]
  | exhausted =>
    left
    rw [search_and_fetch_exhausted_eq w f now p org al bq evs hsp]
  | found t k pid =>
    obtain ⟨q, hmem, hk, tl, hse⟩ :=
      searchTiers_found_src w f now (buildQueries p org al bq) 0 t k pid evs hsp
    rw [search_and_fetch_found_eq w f now p org al bq evs t k pid hsp]
    dsimp only
    rcases fetchPhase_file_cases w f now (resolveOrganism org p).1 k pid with hc | ⟨r, hc⟩
    · left
      exact hc
    · right
      exact ⟨q, hmem, pid, tl, r, hse, by rw [hc, hk]⟩

/-- When every tier's query misses the cache and completes its search
with zero hits, the loop exhausts. -/
theorem searchTiers_all_empty (w : World) (f : CacheFile) (now : Nat) :
    ∀ (qs : List String) (i : Nat),
      (∀ q ∈ qs, get_cached_result f now (searchKey w q) = none ∧
        w.esearch q = .ok []) →
      ∃ evs, searchTiers w f now i qs = (evs, .exhausted) := by
  intro qs
  induction qs with
  | nil =>
    intro i _
    exact ⟨[], searchTiers_nil w f now i⟩
  | cons q rest ih =>
    intro i h
    have hq := h q (List.mem_cons_self q rest)
    obtain ⟨evs, hev⟩ := ih (i + 1) (fun q2 hm => h q2 (List.mem_cons_of_mem q hm))
    refine ⟨.cacheCheck i :: .cacheCheck i :: .search i true :: .sleep :: evs, ?_⟩
    rw [searchTiers_cons_empty w f now i q rest hq.1 hq.2, hev]

/-- C8 per-invocation core: all four tiers yield zero hits, so the
invocation returns `None` and leaves the cache file unchanged. -/
theorem search_and_fetch_none_of_all_empty (w : World) (f : CacheFile) (now : Nat)
    (p org : String) (al bq : Option String)
    (h : ∀ q ∈ buildQueries p org al bq,
      get_cached_result f now (searchKey w q) = none ∧ w.esearch q = .ok []) :
    (search_and_fetch_protein w f now p org al bq).result = none ∧
    (search_and_fetch_protein w f now p org al bq).file = f := by
  obtain ⟨evs, hev⟩ := searchTiers_all_empty w f now (buildQueries p org al bq) 0 h
  rw [search_and_fetch_exhausted_eq w f now p org al bq evs hev]
  exact ⟨rfl, rfl⟩

/-- Evaluation rule: the workflow loop on an empty protein list. -/
theorem runProteins_nil (w : World) (now : Nat) (organism : String)
    (al bq : Option String) (f : CacheFile) :
    runProteins w now organism al bq f [] = ([], [], f) := rfl

/-- Evaluation rule: a successfully retrieved protein prepends its report
row and FASTA text. -/
theorem runProteins_cons_some (w : World) (now : Nat) (organism : String)
    (al bq : Option String) (f : CacheFile) (p2 : String) (rest : List String)
    (r : RQResult)
    (h : (search_and_fetch_protein w f now p2 organism al bq).result = some r) :
    runProteins w now organism al bq f (p2 :: rest) =
      (mkResultEntry p2 r :: (runProteins w now organism al bq
          (search_and_fetch_protein w f now p2 organism al bq).file rest).1,
       r.fasta :: (runProteins w now organism al bq
          (search_and_fetch_protein w f now p2 organism al bq).file rest).2.1,
       (runProteins w now organism al bq
          (search_and_fetch_protein w f now p2 organism al bq).file rest).2.2) := by
  simp only [runProteins]
  rw [h]

/-- Evaluation rule: a protein that could not be retrieved is skipped. -/
theorem runProteins_cons_none (w : World) (now : Nat) (organism : String)
    (al bq : Option String) (f : CacheFile) (p2 : String) (rest : List String)
    (h : (search_and_fetch_protein w f now p2 organism al bq).result = none) :
    runProteins w now organism al bq f (p2 :: rest) =
      runProteins w now organism al bq
        (search_and_fetch_protein w f now p2 organism al bq).file rest := by
  simp only [runProteins]
  rw [h]

/-- Through the whole workflow loop, a protein all of whose queries hit
nothing remotely (and whose keys are initially uncached and collide with
no other target's query keys) never contributes a result row. -/
theorem runProteins_not_found (w : World) (now : Nat) (organism : String)
    (al bq : Option String) (p : String)
    (hemp : ∀ q ∈ buildQueries p organism al bq, w.esearch q = .ok []) :
    ∀ (targets : List String) (f : CacheFile),
      (∀ p2 ∈ targets, ∀ q2 ∈ buildQueries p2 organism al bq,
        ∀ q ∈ buildQueries p organism al bq,
          searchKey w q2 = searchKey w q → q2 = q) →
      (∀ q ∈ buildQueries p organism al bq,
        get_cached_result f now (searchKey w q) = none) →
      p ∉ (runProteins w now organism al bq f targets).1.map
        (fun e => e.protein_name) := by
  intro targets
  induction targets with
  | nil =>
    intro f _ _
    simp [runProteins_nil]
  | cons p2 rest ih =>
    intro f hcol hmiss
    have hcolrest : ∀ p3 ∈ rest, ∀ q2 ∈ buildQueries p3 organism al bq,
        ∀ q ∈ buildQueries p organism al bq,
          searchKey w q2 = searchKey w q → q2 = q :=
      fun p3 hm => hcol p3 (List.mem_cons_of_mem p2 hm)
    have hpres : ∀ q ∈ buildQueries p organism al bq,
        get_cached_result (search_and_fetch_protein w f now p2 organism al bq).file now
          (searchKey w q) = none := by
      intro q hq
      rcases search_and_fetch_file_cases w f now p2 organism al bq with
        hc | ⟨q2, hm2, pid, tl, r, hse2, hc⟩
      · rw [hc]
        exact hmiss q hq
      · rw [hc]
        by_cases hk : searchKey w q2 = searchKey w q
        · have hqq : q2 = q := hcol p2 (List.mem_cons_self p2 rest) q2 hm2 q hq hk
          rw [hqq, hemp q hq] at hse2
          simp at hse2
        · exact get_after_put_other_key w f now now le_rfl (searchKey w q2)
            (searchKey w q) (fun h2 => hk h2.symm) r (hmiss q hq)
    rcases hres : (search_and_fetch_protein w f now p2 organism al bq).result with _ | r
    · rw [runProteins_cons_none w now organism al bq f p2 rest hres]
      exact ih (search_and_fetch_protein w f now p2 organism al bq).file hcolrest hpres
    · rw [runProteins_cons_some w now organism al bq f p2 rest r hres]
      simp only [List.map_cons, List.mem_cons]
      intro hor
      rcases hor with heq | hmem
      · simp only [mkResultEntry] at heq
        subst heq
        have hnone := (search_and_fetch_none_of_all_empty w f now p organism al bq
          (fun q hq => ⟨hmiss q hq, hemp q hq⟩)).1
        rw [hnone] at hres
        cases hres
      · exact ih (search_and_fetch_protein w f now p2 organism al bq).file hcolrest
          hpres hmem

/-- Every outcome of the embedded `main` workflow is either a
configuration failure with exit code 1 or a completed run with exit code
0 — no other exit codes exist. -/
theorem mainRun_exit_codes (w : World) (now : Nat) (f : CacheFile) (args : Args) :
    mainRun w now f args = .configFailure 1 ∨
    ∃ res fas fl, mainRun w now f args = .completed 0 res fas fl := by
  unfold mainRun
  rcases h1 : truthy args.organism with _ | org
  · left
    rfl
  · dsimp only
    rcases h2 : truthy args.email with _ | em
    · left
      rfl
    · dsimp only
      rcases h3 : determine_target_proteins args org with e | tg
      · left
        rfl
      · dsimp only
        by_cases h4 : tg = []
        · left
          rw [if_pos h4]
        · right
          exact ⟨(runProteins w now org args.assembly_level args.biosample_query f tg).1,
            (runProteins w now org args.assembly_level args.biosample_query f tg).2.1,
            (runProteins w now org args.assembly_level args.biosample_query f tg).2.2,
            by rw [if_neg h4]⟩

/-- C8: a protein all four of whose tier queries complete with zero hits
(and are uncached, with collision-free keys) is returned as `None` by
`search_and_fetch_protein`, never appears in the results list, and the
run still completes with exit code 0; exit codes other than 0 arise only
from configuration failures (the embedded `main` yields either
`configFailure 1` or `completed 0`). -/
theorem c8_exhausted_tiers_not_found (w : World) (f : CacheFile) (now : Nat)
    (args : Args) (org : String) (targets : List String) (p : String)
    (horg : truthy args.organism = some org)
    (hemail : ∃ em, truthy args.email = some em)
    (hdet : determine_target_proteins args org = .ok targets)
    (hne : targets ≠ [])
    (_hp : p ∈ targets)
    (hemp : ∀ q ∈ buildQueries p org args.assembly_level args.biosample_query,
      w.esearch q = .ok [])
    (hmiss : ∀ q ∈ buildQueries p org args.assembly_level args.biosample_query,
      get_cached_result f now (searchKey w q) = none)
    (hcol : ∀ p2 ∈ targets, ∀ q2 ∈ buildQueries p2 org args.assembly_level
        args.biosample_query, ∀ q ∈ buildQueries p org args.assembly_level
        args.biosample_query, searchKey w q2 = searchKey w q → q2 = q) :
    (search_and_fetch_protein w f now p org args.assembly_level
      args.biosample_query).result = none ∧
    (∃ results fastas file2, mainRun w now f args = .completed 0 results fastas file2 ∧
      p ∉ results.map (fun e => e.protein_name)) ∧
    (∀ (args2 : Args) (f2 : CacheFile), mainRun w now f2 args2 = .configFailure 1 ∨
      ∃ res fas fl, mainRun w now f2 args2 = .completed 0 res fas fl) := by
  refine ⟨?_, ?_, fun args2 f2 => mainRun_exit_codes w now f2 args2⟩
  · exact (search_and_fetch_none_of_all_empty w f now p org args.assembly_level
      args.biosample_query (fun q hq => ⟨hmiss q hq, hemp q hq⟩)).1
  · obtain ⟨em, hem⟩ := hemail
    unfold mainRun
    rw [horg]
    dsimp only
    rw [hem]
    dsimp only
    rw [hdet]
    dsimp only
    rw [if_neg hne]
    exact ⟨(runProteins w now org args.assembly_level args.biosample_query f targets).1,
      (runProteins w now org args.assembly_level args.biosample_query f targets).2.1,
      (runProteins w now org args.assembly_level args.biosample_query f targets).2.2,
      rfl,
      runProteins_not_found w now org args.assembly_level args.biosample_query p hemp
        targets f hcol hmiss⟩

/-- A concrete world in which every remote search completes with zero
hits. -/
def wAllMiss : World :=
  { md5 := fun s => s,
    esearch := fun _ => .ok [],
    efetchFasta := fun _ => .ok "",
    parseFasta := fun _ => .ok ⟨"", 0⟩,
    esummary := fun _ => .ok [],
    writeOk := true }

/-- Concrete post-merge arguments: organism "Org", proteins "P,Q",
email present, no filters. -/
def argsPQ : Args :=
  { organism := some "Org",
    proteins := some "P,Q",
    protein_list := none,
    assembly_level := none,
    biosample_query := none,
    email := some "a@b.c" }

set_option maxRecDepth 10000 in
/-- Witness for C8: with every search empty, protein "P" is not found,
appears in no result row, and the concrete run completes with exit
code 0. -/
theorem c8_exhausted_tiers_not_found_witness :
    (search_and_fetch_protein wAllMiss (CacheFile.ok []) 0 "P" "Org"
      argsPQ.assembly_level argsPQ.biosample_query).result = none ∧
    (∃ results fastas file2, mainRun wAllMiss 0 (CacheFile.ok []) argsPQ =
        .completed 0 results fastas file2 ∧
      "P" ∉ results.map (fun e => e.protein_name)) ∧
    (∀ (args2 : Args) (f2 : CacheFile),
      mainRun wAllMiss 0 f2 args2 = .configFailure 1 ∨
      ∃ res fas fl, mainRun wAllMiss 0 f2 args2 = .completed 0 res fas fl) :=
  c8_exhausted_tiers_not_found wAllMiss (CacheFile.ok []) 0 argsPQ "Org" ["P", "Q"] "P"
    (by decide) ⟨"a@b.c", by decide⟩ (by decide) (by decide) (by decide)
    (by decide) (by decide) (by decide)
